import Mathlib

/-!
Shallow embedding of the CSV ingestion / validation pipeline of the
product-management-portal backend, together with proofs about its
behaviour.  The definitions mirror, function by function, the Python
sources:

* `src/lambda_process_s3_file/lambda_process_s3.py`
  (`validate_value`, `log_initial_job_status`, `update_job_status`,
  and the CSV-processing / status-decision portion of `lambda_handler`);
* `src/lambda_approve_save_products/lambda_approve_create_products.py`
  (the bulk-save handler, including its reference to the never-imported
  `uuid` module).

Python strings are embedded as `String`, Python `None`-able cell values
as `Option String`, Python dynamic values as the inductive `PyVal`, and
the document store as a function from identifiers to optional records.
Python `float` parsing is embedded as exact decimal-rational parsing
(`PyNum`); the exotic inputs Python's `float` also accepts
(`inf`, `nan`, underscore grouping) are not modelled, and no claim
below depends on them.
-/

namespace PortalBackend

/-- Python `str.strip` whitespace class (ASCII part; the claims never use
non-ASCII whitespace). -/
def pyIsSpace (c : Char) : Bool :=
  c = ' ' || c = '\t' || c = '\n' || c = '\r' || c = '\x0b' || c = '\x0c'

/-- Strip leading and trailing whitespace from a character list. -/
def stripChars (cs : List Char) : List Char :=
  ((cs.dropWhile pyIsSpace).reverse.dropWhile pyIsSpace).reverse

/-- Python `str.strip()`. -/
def pyStrip (s : String) : String := ⟨stripChars s.toList⟩

/-- Split a character list at every occurrence of `;` (Python
`str.split(';')` semantics: `"".split(';') == [""]`,
`";".split(';') == ["", ""]`). -/
def splitSemis : List Char → List (List Char)
  | [] => [[]]
  | c :: rest =>
    let r := splitSemis rest
    if c = ';' then [] :: r
    else
      match r with
      | h :: t => (c :: h) :: t
      | [] => [[c]]

/-- Python `str.split(';')`. -/
def pySplitSemi (s : String) : List String :=
  (splitSemis s.toList).map (fun cs => ⟨cs⟩)

/-- Does `pat` occur at the start of `hay`?  (List-level helper for the
substring test used by the row processor's duplicate-error check.) -/
def startsWithL : List Char → List Char → Bool
  | [], _ => true
  | _ :: _, [] => false
  | a :: as, b :: bs => a = b && startsWithL as bs

/-- Does `pat` occur as a contiguous segment of `hay`? -/
def hasSegment (pat : List Char) : List Char → Bool
  | [] => startsWithL pat []
  | b :: bs => startsWithL pat (b :: bs) || hasSegment pat bs

/-- Python `pat in hay` on strings (substring containment). -/
def strContains (hay pat : String) : Bool := hasSegment pat.toList hay.toList

/-- An exact rational number standing in for a Python `float` produced by
parsing a finite decimal literal.  Stored normalized (lowest terms). -/
structure PyNum where
  num : Int
  den : Nat
  deriving DecidableEq, Repr

/-- Normalize a fraction to lowest terms (the denominators produced by the
decimal parser are always positive powers of ten). -/
def mkPyNum (n : Int) (d : Nat) : PyNum :=
  let g := n.natAbs.gcd d
  if g = 0 then ⟨0, 1⟩ else ⟨n / (g : Int), d / g⟩

/-- A dynamic Python value as it occurs in this code base: `None`, a
string, an int, a float, a list of strings, or the value/unit nested
document assembled for measure attributes. -/
inductive PyVal where
  | none : PyVal
  | str : String → PyVal
  | int : Int → PyVal
  | float : PyNum → PyVal
  | strList : List String → PyVal
  | measureV : PyVal → PyVal → PyVal
  deriving DecidableEq, Repr

/-- An attribute definition document, with exactly the fields
`validate_value` reads: `attr_def.get('type')`, `attr_def.get('name',
header_name)`, `attr_def.get('isRequired', False)`,
`attr_def.get('options', [])`. -/
structure AttrDef where
  name : Option String
  type : Option String
  isRequired : Bool := false
  options : List String := []
  deriving DecidableEq, Repr

/-- `SHORT_TEXT_MAX_LENGTH = int(os.environ.get('SHORT_TEXT_MAX_LENGTH', 50))`
with the default environment. -/
def SHORT_TEXT_MAX_LENGTH : Nat := 50

/-- Python `repr` of a string that contains no quote or escape characters
(all option names in the claims are plain). -/
def pyRepr (s : String) : String := "\x27" ++ s ++ "\x27"

/-- Python `str` of a list of plain strings, as interpolated into
validation error messages. -/
def pyReprList (xs : List String) : String :=
  "[" ++ String.intercalate ", " (xs.map pyRepr) ++ "]"

/-- The `f"Row {row_number+1}, Column '{attr_name}': "` message head shared
by every error `validate_value` produces. -/
def rowColHead (row_number : Nat) (attr_name : String) : String :=
  "Row " ++ toString (row_number + 1) ++ ", Column \x27" ++ attr_name ++ "\x27: "

/-- Value of a non-empty all-digit character list, `none` otherwise. -/
def digitsVal (cs : List Char) : Option Nat :=
  if cs = [] then none
  else cs.foldlM (fun acc c => if c.isDigit then some (acc * 10 + (c.toNat - 48)) else none) 0

/-- Python `float(s)` on a finite decimal literal, as an exact rational:
optional sign, an integer part and/or a fractional part, and an optional
decimal exponent.  Returns `none` exactly when Python raises
`ValueError` (`inf`/`nan`/underscore forms aside, which no claim uses). -/
def pyFloat (s : String) : Option PyNum :=
  let cs := s.toList
  let signAndRest : Int × List Char :=
    match cs with
    | '+' :: r => (1, r)
    | '-' :: r => (-1, r)
    | r => (1, r)
  let sign := signAndRest.1
  let cs1 := signAndRest.2
  let mant := cs1.takeWhile (fun c => !(c = 'e' || c = 'E'))
  let expPart := cs1.dropWhile (fun c => !(c = 'e' || c = 'E'))
  let expVal : Option Int :=
    match expPart with
    | [] => some 0
    | _ :: rest =>
      match rest with
      | '+' :: r => (digitsVal r).map (fun n => (n : Int))
      | '-' :: r => (digitsVal r).map (fun n => -(n : Int))
      | r => (digitsVal r).map (fun n => (n : Int))
  let ip := mant.takeWhile (fun c => !(c = '.'))
  let fpRest := mant.dropWhile (fun c => !(c = '.'))
  let mantVal : Option (Nat × Nat) :=
    match fpRest with
    | [] => (digitsVal ip).map (fun a => (a, 0))
    | _ :: fd =>
      if ip = [] ∧ fd = [] then none
      else
        let aOpt := if ip = [] then some 0 else digitsVal ip
        let bOpt := if fd = [] then some 0 else digitsVal fd
        match aOpt, bOpt with
        | some a, some b => some (a * 10 ^ fd.length + b, fd.length)
        | _, _ => none
  match mantVal, expVal with
  | some (m, k), some e =>
      if 0 ≤ e then some (mkPyNum (sign * (m : Int) * (10 : Int) ^ e.toNat) (10 ^ k))
      else some (mkPyNum (sign * (m : Int)) (10 ^ (k + (-e).toNat)))
  | _, _ => none

/-- The triple returned by `validate_value`. -/
structure ValidateResult where
  isValid : Bool
  cleanedValue : PyVal
  errorMsg : Option String
  deriving DecidableEq, Repr

/-- `validate_value(value_str, header_name, attr_def, row_number)`
(lambda_process_s3.py lines 106-131), branch for branch. -/
def validate_value (value_str : Option String) (header_name : String)
    (attr_def : AttrDef) (row_number : Nat) : ValidateResult :=
  let attr_type := attr_def.type
  let attr_name := attr_def.name.getD header_name
  let is_required := attr_def.isRequired
  if value_str = none ∨ pyStrip (value_str.getD "") = "" then
    if is_required then
      ⟨false, PyVal.none, some (rowColHead row_number attr_name ++ "Value is required but is empty.")⟩
    else ⟨true, PyVal.none, none⟩
  else
    let cleaned_value := pyStrip (value_str.getD "")
    if attr_type = some "short_text" then
      if cleaned_value.length > SHORT_TEXT_MAX_LENGTH then
        ⟨false, PyVal.str cleaned_value,
          some (rowColHead row_number attr_name ++ "Value exceeds max length of " ++
            toString SHORT_TEXT_MAX_LENGTH ++ ".")⟩
      else ⟨true, PyVal.str cleaned_value, none⟩
    else if attr_type = some "long_text" ∨ attr_type = some "rich_text" then
      ⟨true, PyVal.str cleaned_value, none⟩
    else if attr_type = some "number" then
      match pyFloat cleaned_value with
      | some q =>
          ⟨true, if q.den = 1 then PyVal.int q.num else PyVal.float q, none⟩
      | none =>
          ⟨false, PyVal.str cleaned_value,
            some (rowColHead row_number attr_name ++ "Value \x27" ++ cleaned_value ++
              "\x27 is not a valid number.")⟩
    else if attr_type = some "single_select" then
      let options := attr_def.options
      if options = [] then
        ⟨false, PyVal.str cleaned_value,
          some (rowColHead row_number attr_name ++ "No options defined.")⟩
      else if cleaned_value ∈ options then ⟨true, PyVal.str cleaned_value, none⟩
      else
        ⟨false, PyVal.str cleaned_value,
          some (rowColHead row_number attr_name ++ "Value \x27" ++ cleaned_value ++
            "\x27 not in allowed options: " ++ pyReprList options ++ ".")⟩
    else if attr_type = some "multiple_select" then
      let options := attr_def.options
      if options = [] then
        ⟨false, PyVal.str cleaned_value,
          some (rowColHead row_number attr_name ++ "No options defined.")⟩
      else
        let selected_values := ((pySplitSemi cleaned_value).map pyStrip).filter (fun v => v ≠ "")
        if selected_values = [] ∧ is_required = true then
          ⟨false, PyVal.str cleaned_value,
            some (rowColHead row_number attr_name ++ "Value is required.")⟩
        else
          let invalid_selections := selected_values.filter (fun sv => sv ∉ options)
          if invalid_selections = [] then ⟨true, PyVal.strList selected_values, none⟩
          else
            ⟨false, PyVal.strList selected_values,
              some (rowColHead row_number attr_name ++ "Values " ++
                pyReprList invalid_selections ++ " are not in allowed options: " ++
                pyReprList options ++ ".")⟩
    else if attr_type = some "measure" then ⟨true, PyVal.str cleaned_value, none⟩
    else ⟨true, PyVal.str cleaned_value, none⟩

/-- A parsed CSV data row as `csv.DictReader` hands it to the handler:
an association from header name to the cell string (`none` embeds a
Python `None` cell, e.g. a short row's fill value). -/
abbrev Row : Type := List (String × Option String)

/-- `row_data_dict.get(header_name)`: `none` both for an absent key and
for a stored `None`. -/
def rowGet (r : Row) (k : String) : Option String :=
  (List.lookup k r).join

/-- A product document under construction: a Python dict keyed by
attribute name, in insertion order. -/
abbrev PyDoc : Type := List (String × PyVal)

/-- Python dict assignment `d[k] = v`: replace in place if the key is
present, else append. -/
def dictSet : PyDoc → String → PyVal → PyDoc
  | [], k, v => [(k, v)]
  | (k0, v0) :: rest, k, v =>
    if k0 = k then (k, v) :: rest else (k0, v0) :: dictSet rest k v

/-- `current_row_product_data.get(header_name)`. -/
def dictGet (d : PyDoc) (k : String) : Option PyVal :=
  List.lookup k d

/-- The truthiness test of lambda_process_s3.py line 243:
`data.get(h) is None or str(data.get(h, "")).strip() == ""`.  `str` of an
int, float or list is never blank, so only the string case consults
`strip`. -/
def isNoneOrBlankVal (v : Option PyVal) : Bool :=
  match v with
  | none => true
  | some PyVal.none => true
  | some (PyVal.str s) => pyStrip s = ""
  | some _ => false

/-- The attribute map built by `get_defined_attributes_map`: an
association from attribute name to its definition. -/
abbrev AttrMap : Type := List (String × AttrDef)

/-- The state accumulated by the row loop of `lambda_handler`
(lines 230-248): `total_rows_read`, `products_for_result`,
`validation_errors_list`. -/
structure RowState where
  totalRows : Nat
  products : List PyDoc
  validationErrors : List String

/-- One row of the row loop (lambda_process_s3.py lines 232-248): the
first pass validates every recognized column and collects the cleaned
values and errors; the second pass re-checks required columns against
the collected data, appending a "required but is missing or empty"
error unless an equivalent required-error for that column is already
present.  Returns `(current_row_product_data, is_current_row_valid,
row_specific_errors)`.  The `lookup` always succeeds because
`headers_for_result` only holds keys of the attribute map; an absent key
leaves the state unchanged. -/
def processRow (attrs : AttrMap) (headersForResult : List String)
    (row : Row) (i : Nat) : PyDoc × Bool × List String :=
  let firstPass := headersForResult.foldl
    (fun (st : PyDoc × Bool × List String) header_name =>
      match List.lookup header_name attrs with
      | none => st
      | some attr_def =>
        let r := validate_value (rowGet row header_name) header_name attr_def i
        (dictSet st.1 header_name r.cleanedValue,
         (if r.isValid then st.2.1 else false),
         (match r.errorMsg with
          | some m => st.2.2 ++ [m]
          | none => st.2.2)))
    ([], true, [])
  headersForResult.foldl
    (fun (st : PyDoc × Bool × List String) header_name =>
      match List.lookup header_name attrs with
      | none => st
      | some attr_def =>
        if attr_def.isRequired = true ∧ isNoneOrBlankVal (dictGet st.1 header_name) = true then
          let err := rowColHead i header_name ++ "Value is required but is missing or empty."
          let dup := st.2.2.any (fun e =>
            !(e = "") && strContains e ("Column \x27" ++ header_name ++ "\x27") &&
              strContains e "Value is required")
          (st.1, false, if dup then st.2.2 else st.2.2 ++ [err])
        else st)
    firstPass

/-- Step function of the row loop: append the row's product if valid,
else extend the error list with the row's errors. -/
def rowFoldStep (attrs : AttrMap) (headersForResult : List String)
    (st : RowState) (p : Nat × Row) : RowState :=
  let r := processRow attrs headersForResult p.2 p.1
  { totalRows := st.totalRows + 1,
    products := if r.2.1 then st.products ++ [r.1] else st.products,
    validationErrors :=
      if r.2.1 then st.validationErrors
      else if r.2.2 = [] then st.validationErrors
      else st.validationErrors ++ r.2.2 }

/-- The outcome of the CSV-processing block of `lambda_handler`
(lines 211-251): the fields of `result_data_to_save` that the block
computes, plus `final_job_status`. -/
structure ProcessOutcome where
  products : List PyDoc
  validationErrors : List String
  headersForResult : List String
  ignoredHeaders : List String
  message : String
  finalStatus : String

/-- The CSV-processing block of `lambda_handler` (lines 211-251) after a
successful download and structural parse: partition the headers into
recognized and ignored, short-circuit on no headers / no recognized
headers, otherwise run the row loop and decide the terminal status.
`final_job_status` is initialized to `"COMPLETED_WITH_ISSUES"` and
promoted to `"COMPLETED"` only under the line-250 condition.  The
single partition loop of lines 224-226 is rendered as two order-
preserving filters. -/
def processCsv (attrs : AttrMap) (headers : List String) (rows : List Row) :
    ProcessOutcome :=
  if headers = [] then
    { products := [], validationErrors := [], headersForResult := [],
      ignoredHeaders := [], message := "CSV file is empty or has no headers.",
      finalStatus := "COMPLETED_WITH_ISSUES" }
  else
    let headersForResult := headers.filter (fun h => (List.lookup h attrs).isSome)
    let ignoredHeaders := headers.filter (fun h => !(List.lookup h attrs).isSome)
    if headersForResult = [] then
      { products := [], validationErrors := [], headersForResult := [],
        ignoredHeaders := ignoredHeaders,
        message := "No columns in the CSV match defined attributes.",
        finalStatus := "COMPLETED_WITH_ISSUES" }
    else
      let st := rows.enum.foldl (rowFoldStep attrs headersForResult) ⟨0, [], []⟩
      { products := st.products, validationErrors := st.validationErrors,
        headersForResult := headersForResult, ignoredHeaders := ignoredHeaders,
        message := "Processed " ++ toString st.totalRows ++ " rows. Found " ++
          toString st.products.length ++ " valid products and " ++
          toString st.validationErrors.length ++ " validation issues.",
        finalStatus :=
          if st.validationErrors = [] ∧ ignoredHeaders = [] ∧ 0 < st.totalRows ∧
              st.products.length = st.totalRows
          then "COMPLETED" else "COMPLETED_WITH_ISSUES" }

/-- A `processing_jobs` document.  `errorDetails` is the structured
error payload (an association list embeds the Python dict that every
failure path of this handler passes). -/
structure JobRecord where
  s3Bucket : String
  s3Key : String
  originalFileName : String
  status : String
  processingStartedAt : String
  updatedAt : String
  submittedAt : String
  resultS3Key : Option String
  errorDetails : Option (List (String × String))
  deriving DecidableEq, Repr

/-- The jobs collection, keyed by `_id`. -/
abbrev JobsDb : Type := String → Option JobRecord

/-- Point update of the jobs collection. -/
def dbSet (db : JobsDb) (k : String) (r : JobRecord) : JobsDb :=
  fun x => if x = k then some r else db x

/-- `log_initial_job_status` (lambda_process_s3.py lines 61-81): an
upsert on `_id = job_id` whose `$set` document carries the source
fields, `status: 'PROCESSING'` and the two clock fields, and whose
`$setOnInsert` fixes `submittedAt` (and `_id`) only when the document is
being created.  `now` stands for `datetime.now(timezone.utc).isoformat()`. -/
def log_initial_job_status (db : JobsDb) (job_id s3_bucket s3_key
    original_file_name submitted_at_iso now : String) : JobsDb :=
  match db job_id with
  | some r =>
      dbSet db job_id { r with
        s3Bucket := s3_bucket, s3Key := s3_key,
        originalFileName := original_file_name, status := "PROCESSING",
        processingStartedAt := now, updatedAt := now }
  | none =>
      dbSet db job_id
        { s3Bucket := s3_bucket, s3Key := s3_key,
          originalFileName := original_file_name, status := "PROCESSING",
          processingStartedAt := now, updatedAt := now,
          submittedAt := submitted_at_iso, resultS3Key := none,
          errorDetails := none }

/-- `update_job_status` (lines 83-94): `$set` of `status` and
`updatedAt`, plus `resultS3Key` / `errorDetails` only when passed; an
unknown `job_id` is a logged no-op. -/
def update_job_status (db : JobsDb) (job_id status : String)
    (result_s3_key : Option String)
    (error_details : Option (List (String × String))) (now : String) : JobsDb :=
  match db job_id with
  | none => db
  | some r =>
      dbSet db job_id { r with
        status := status, updatedAt := now,
        resultS3Key := (match result_s3_key with
          | some k => some k
          | none => r.resultS3Key),
        errorDetails := (match error_details with
          | some e => some e
          | none => r.errorDetails) }

/-- The queue message payload consumed by the ingestion handler.  A
missing field is embedded as `""` (both `None` and the empty string are
falsy under the handler's `not job_id` checks). -/
structure SqsMessage where
  jobId : String
  s3Bucket : String
  s3Key : String
  originalFileName : String
  submittedAt : String
  deriving DecidableEq, Repr

/-- The ambient world one record is processed against: the attribute
definitions, the downloaded object (`none` embeds an S3 `ClientError`;
`Except.error` a `csv.Error` raised while parsing; `Except.ok` the
parsed header row and data rows), the results bucket configuration, the
current clock reading, and whether the result `put_object` succeeds. -/
structure Env where
  attrs : AttrMap
  s3Object : Option (Except String (List String × List Row))
  resultsBucket : String
  resultsPrefix : String
  now : String
  putObjectOk : Bool

/-- `result_data_to_save` (lines 255-261), minus the JSON encoding: the
artifact's logical content. -/
structure ResultData where
  jobId : String
  s3Key : String
  processingTimestamp : String
  message : String
  fileName : String
  headers : List String
  products : List PyDoc
  originalHeaders : List String
  ignoredHeaders : List String
  validationErrors : List String

/-- Python `PROCESSED_RESULTS_PREFIX.rstrip('/')`. -/
def rstripSlash (s : String) : String :=
  ⟨(s.toList.reverse.dropWhile (fun c => c = '/')).reverse⟩

/-- What processing one SQS record leaves behind: the updated jobs
collection, the result artifacts written to the results bucket, and
whether the record's processing re-raises (so the exception escapes
`lambda_handler` and SQS redelivers). -/
structure RecordOutcome where
  db : JobsDb
  written : List (String × ResultData)
  propagates : Bool

/-- The per-record body of `lambda_handler` (lines 140-278) for one
well-formed message, given a live database connection: the
missing-field check, the initial PROCESSING upsert, the configuration
and attribute-map guards, download, parse, row processing, artifact
write, and final status update.  A branch that reaches the
`except Exception` handler of line 274 performs its extra FAILED update
and re-raises (`propagates := true`); a `continue` branch does not. -/
def processRecord (env : Env) (msg : SqsMessage) (db : JobsDb) : RecordOutcome :=
  if msg.jobId = "" ∨ msg.s3Bucket = "" ∨ msg.s3Key = "" then
    { db := if msg.jobId = "" then db
        else update_job_status db msg.jobId "FAILED" none
          (some [("error", "Missing jobId, s3Bucket, or s3Key in SQS message payload.")]) env.now,
      written := [], propagates := false }
  else
    let db := log_initial_job_status db msg.jobId msg.s3Bucket msg.s3Key
      msg.originalFileName msg.submittedAt env.now
    if env.resultsBucket = "" then
      { db := update_job_status db msg.jobId "FAILED" none
          (some [("error", "PROCESSED_RESULTS_BUCKET environment variable not set.")]) env.now,
        written := [], propagates := false }
    else if env.attrs = [] then
      { db := update_job_status db msg.jobId "FAILED" none
          (some [("error", "Could not retrieve attribute definitions for validation.")]) env.now,
        written := [], propagates := false }
    else
      match env.s3Object with
      | none =>
          let db1 := update_job_status db msg.jobId "FAILED" none
            (some [("error", "S3 download error")]) env.now
          let db2 := update_job_status db1 msg.jobId "FAILED" none
            (some [("error", "Unhandled exception during processing.")]) env.now
          { db := db2, written := [], propagates := true }
      | some (Except.error e) =>
          { db := update_job_status db msg.jobId "FAILED" none
              (some [("error", "Failed to parse CSV file structure for job " ++
                msg.jobId ++ ": " ++ e)]) env.now,
            written := [], propagates := false }
      | some (Except.ok (headers, rows)) =>
          let out := processCsv env.attrs headers rows
          let resultKey := rstripSlash env.resultsPrefix ++ "/" ++ msg.jobId ++ "-result.json"
          let resultData : ResultData :=
            { jobId := msg.jobId, s3Key := msg.s3Key,
              processingTimestamp := env.now, message := out.message,
              fileName := msg.originalFileName, headers := out.headersForResult,
              products := out.products, originalHeaders := headers,
              ignoredHeaders := out.ignoredHeaders,
              validationErrors := out.validationErrors }
          if env.putObjectOk then
            { db := update_job_status db msg.jobId out.finalStatus (some resultKey) none env.now,
              written := [(resultKey, resultData)], propagates := false }
          else
            let db1 := update_job_status db msg.jobId "FAILED" none
              (some [("error", "Failed to save results to S3.")]) env.now
            let db2 := update_job_status db1 msg.jobId "FAILED" none
              (some [("error", "Unhandled exception during processing.")]) env.now
            { db := db2, written := [], propagates := true }

/-- Status of a job in the collection, if present. -/
def statusOf (db : JobsDb) (jobId : String) : Option String :=
  (db jobId).map JobRecord.status

/-- `submittedAt` of a job in the collection, if present. -/
def submittedAtOf (db : JobsDb) (jobId : String) : Option String :=
  (db jobId).map JobRecord.submittedAt

/-! Embedding of `lambda_approve_create_products.py` (bulk save). -/

/-- Python truthiness of the values occurring in product dictionaries. -/
def pyTruthy : PyVal → Bool
  | PyVal.none => false
  | PyVal.str s => !(s = "")
  | PyVal.int n => !(n = 0)
  | PyVal.float q => !(q.num = 0)
  | PyVal.strList l => !(l = [])
  | PyVal.measureV _ _ => true

/-- `d.get(k)` on a product dict, yielding a falsy `None` for a missing
key, followed by the Python `or` chain's truthiness test. -/
def getTruthy (d : PyDoc) (k : String) : Option PyVal :=
  match List.lookup k d with
  | some v => if pyTruthy v then some v else none
  | none => none

/-- `new_product_doc.get('Barcode') or new_product_doc.get('ProductName')
or str(uuid.uuid4())` (lambda_approve_create_products.py line 117).
The module imports `json`, `os`, `logging`, `pymongo` and `datetime`
but never `uuid`, so when both `get`s are falsy the third operand's
evaluation raises `NameError: name 'uuid' is not defined`; the `or`
chain short-circuits, so the error is reached only in that case. -/
def deriveProductId (d : PyDoc) : Except String PyVal :=
  match getTruthy d "Barcode" with
  | some v => Except.ok v
  | none =>
    match getTruthy d "ProductName" with
    | some v => Except.ok v
    | none => Except.error "name \x27uuid\x27 is not defined"

/-- Python `str.isdigit` on the strings this handler sees (ASCII digits). -/
def pyIsDigitStr (s : String) : Bool :=
  !(s = "") && s.toList.all Char.isDigit

/-- The per-value coercion of lines 139-149: an all-digit string becomes
an int, otherwise a string parseable as a float becomes a float (kept as
a float even when integral — this path has no `is_integer`
normalization), otherwise the value is unchanged. -/
def coerceVal : PyVal → PyVal
  | PyVal.str s =>
      if pyIsDigitStr s then PyVal.int ((digitsVal s.toList).getD 0)
      else
        match pyFloat s with
        | some q => PyVal.float q
        | none => PyVal.str s
  | v => v

/-- The `measure_attributes` table of lines 123-128. -/
def measure_attributes : List (String × String × String) :=
  [("ItemWeight", "ItemWeightValue", "ItemWeightUnit"),
   ("Width", "WidthValue", "WidthUnit"),
   ("Height", "HeightValue", "HeightUnit")]

/-- Python dict `pop`: the value (if present) and the dict without the key. -/
def dictPop (d : PyDoc) (k : String) : Option PyVal × PyDoc :=
  (List.lookup k d, d.filter (fun p => !(p.1 = k)))

/-- Lines 130-135: for each measure attribute whose value and unit keys
are both present, pop the pair and store the nested value/unit document. -/
def consolidateMeasures (d : PyDoc) : PyDoc :=
  measure_attributes.foldl
    (fun d0 m =>
      match List.lookup m.2.1 d0, List.lookup m.2.2 d0 with
      | some v, some u =>
          dictSet (dictPop (dictPop d0 m.2.1).2 m.2.2).2 m.1 (PyVal.measureV v u)
      | _, _ => d0)
    d

/-- Lines 112-151 for one product dictionary, after the identifier was
derived: copy, set `_id` and the metadata fields, consolidate measure
pairs, coerce string values. -/
def transformProduct (d : PyDoc) (pid : PyVal) (s3KeySource : String)
    (now : String) : PyDoc :=
  let d1 := dictSet d "_id" pid
  let d2 := dictSet d1 "createdAt" (PyVal.str now)
  let d3 := dictSet d2 "updatedAt" (PyVal.str now)
  let d4 := dictSet d3 "importSource" (PyVal.str s3KeySource)
  (consolidateMeasures d4).map (fun p => (p.1, coerceVal p.2))

/-- The loop of lines 106-151, one product at a time: an exception from
the identifier derivation aborts the whole loop. -/
def processProductsGo (s3KeySource now : String) :
    List PyDoc → List PyDoc → Except String (List PyDoc)
  | [], acc => Except.ok acc
  | d :: rest, acc =>
    match deriveProductId d with
    | Except.error e => Except.error e
    | Except.ok pid =>
        processProductsGo s3KeySource now rest
          (acc ++ [transformProduct d pid s3KeySource now])

/-- The loop of lines 106-151: build `processed_products`, propagating
the `NameError` of the identifier derivation as the exception it is. -/
def processProducts (products : List PyDoc) (s3KeySource now : String) :
    Except String (List PyDoc) :=
  processProductsGo s3KeySource now products []

/-- The products collection, keyed by the (possibly coerced) `_id` value. -/
abbrev ProductStore : Type := PyVal → Option PyDoc

/-- The bulk write of lines 163-189: per document an `UpdateOne` upsert
on `_id` whose `$set` carries every field but `createdAt` and whose
`$setOnInsert` carries `createdAt`. -/
def bulkWrite (store : ProductStore) (docs : List PyDoc) : ProductStore :=
  docs.foldl
    (fun st d =>
      match List.lookup "_id" d with
      | none => st
      | some pid =>
        let setFields := d.filter (fun p => !(p.1 = "createdAt"))
        let newDoc :=
          match st pid with
          | some old =>
              setFields.foldl (fun acc p => dictSet acc p.1 p.2) old
          | none =>
              match List.lookup "createdAt" d with
              | some c => dictSet setFields "createdAt" c
              | none => setFields
        fun x => if x = pid then some newDoc else st x)
    store

/-- The HTTP-shaped response of the bulk-save handler: status code and
the body's `error` field when the body is an error envelope. -/
structure SaveResponse where
  statusCode : Nat
  errorBody : Option String
  deriving DecidableEq, Repr

/-- `lambda_handler` of lambda_approve_create_products.py (lines
68-213), body parsing and connection setup abstracted: `none` embeds a
request whose body has no `products` list.  An exception escaping the
processing loop is caught by the line-207 `except Exception` and turned
into a 500 without touching the store (the bulk write of line 189 is
only issued after the loop finishes). -/
def approveSaveHandler (bodyProducts : Option (List PyDoc)) (s3KeySource : String)
    (store : ProductStore) (now : String) : SaveResponse × ProductStore :=
  match bodyProducts with
  | none =>
      (⟨400, some "Request body must contain a \x27products\x27 array."⟩, store)
  | some products =>
    if products = [] then
      (⟨400, some "Request body must contain a \x27products\x27 array."⟩, store)
    else
      match processProducts products s3KeySource now with
      | Except.error e =>
          (⟨500, some ("An unexpected server error occurred: " ++ e)⟩, store)
      | Except.ok processed =>
          if processed = [] then (⟨200, none⟩, store)
          else (⟨200, none⟩, bulkWrite store processed)

/-! Theorems. -/

/-- Every error message produced through `rowColHead` mentions the
attribute name it was built from, as a contiguous substring. -/
lemma rowColHead_append_mentions (r : Nat) (n tail : String) :
    rowColHead r n ++ tail =
      ("Row " ++ toString (r + 1) ++ ", Column \x27") ++ n ++ ("\x27: " ++ tail) := by
  unfold rowColHead
  simp [String.append_assoc]

/-- C5: for every attribute definition of type `number` and every row
position, validating `"42"` is accepted as integer 42, `"42.5"` is
accepted as the float 42.5 (the exact rational 85/2), and `"abc"` is
rejected with an error message that mentions the column's name (the
definition's display name, defaulting to the header). -/
theorem c5_number_validation (attr_def : AttrDef) (header_name : String)
    (row_number : Nat) (h : attr_def.type = some "number") :
    validate_value (some "42") header_name attr_def row_number =
      ⟨true, PyVal.int 42, none⟩ ∧
    validate_value (some "42.5") header_name attr_def row_number =
      ⟨true, PyVal.float ⟨85, 2⟩, none⟩ ∧
    (validate_value (some "abc") header_name attr_def row_number).isValid = false ∧
    ∃ pre post,
      (validate_value (some "abc") header_name attr_def row_number).errorMsg =
        some (pre ++ (attr_def.name.getD header_name) ++ post) := by
  obtain ⟨nm, ty, req, opts⟩ := attr_def
  have h' : ty = some "number" := h
  subst h'
  refine ⟨rfl, rfl, rfl, "Row " ++ toString (row_number + 1) ++ ", Column \x27",
    "\x27: " ++ "Value \x27" ++ "abc" ++ "\x27 is not a valid number.", ?_⟩
  have hmsg : (validate_value (some "abc") header_name
      ⟨nm, some "number", req, opts⟩ row_number).errorMsg =
      some (rowColHead row_number (nm.getD header_name) ++ "Value \x27" ++ "abc" ++
        "\x27 is not a valid number.") := by rfl
  rw [hmsg]
  unfold rowColHead
  simp [String.append_assoc]

/-- Witness for C5 at the concrete definition
`{name: "Price", type: "number"}`, header `"Price"`, row 0. -/
theorem c5_number_validation_witness :
    (AttrDef.mk (some "Price") (some "number") false []).type = some "number" ∧
    (validate_value (some "42") "Price" ⟨some "Price", some "number", false, []⟩ 0 =
        ⟨true, PyVal.int 42, none⟩ ∧
      validate_value (some "42.5") "Price" ⟨some "Price", some "number", false, []⟩ 0 =
        ⟨true, PyVal.float ⟨85, 2⟩, none⟩ ∧
      (validate_value (some "abc") "Price" ⟨some "Price", some "number", false, []⟩ 0).isValid
          = false ∧
      ∃ pre post,
        (validate_value (some "abc") "Price" ⟨some "Price", some "number", false, []⟩ 0).errorMsg
          = some (pre ++
              ((AttrDef.mk (some "Price") (some "number") false []).name.getD "Price") ++ post)) :=
  ⟨rfl, c5_number_validation ⟨some "Price", some "number", false, []⟩ "Price" 0 rfl⟩

/-- C10: a definition whose `type` is absent or not one of the seven
documented types falls through every branch of `validate_value`: every
non-blank input is accepted as its trimmed string, and the only possible
rejection is the required-but-empty check. -/
theorem c10_unknown_type_passthrough (attr_def : AttrDef) (header_name : String)
    (row_number : Nat)
    (h : ∀ t : String, t ∈ ["short_text", "long_text", "rich_text", "number",
        "single_select", "multiple_select", "measure"] → attr_def.type ≠ some t) :
    (∀ v : String, pyStrip v ≠ "" →
      validate_value (some v) header_name attr_def row_number =
        ⟨true, PyVal.str (pyStrip v), none⟩) ∧
    (∀ v : Option String,
      (validate_value v header_name attr_def row_number).isValid = false →
        (v = none ∨ pyStrip (v.getD "") = "") ∧ attr_def.isRequired = true) := by
  have h1 : attr_def.type ≠ some "short_text" := h _ (by simp)
  have h2 : attr_def.type ≠ some "long_text" := h _ (by simp)
  have h3 : attr_def.type ≠ some "rich_text" := h _ (by simp)
  have h4 : attr_def.type ≠ some "number" := h _ (by simp)
  have h5 : attr_def.type ≠ some "single_select" := h _ (by simp)
  have h6 : attr_def.type ≠ some "multiple_select" := h _ (by simp)
  have h7 : attr_def.type ≠ some "measure" := h _ (by simp)
  constructor
  · intro v hv
    simp [validate_value, h1, h2, h3, h4, h5, h6, h7, hv]
  · intro v hval
    by_cases hb : v = none ∨ pyStrip (v.getD "") = ""
    · refine ⟨hb, ?_⟩
      cases hr : attr_def.isRequired
      · exfalso
        simp only [validate_value] at hval
        rw [if_pos hb, hr] at hval
        simp at hval
      · rfl
    · exfalso
      simp only [validate_value] at hval
      rw [if_neg hb] at hval
      simp [h1, h2, h3, h4, h5, h6, h7] at hval

/-- Witness for C10 at the concrete definition with the unrecognized
type `"banana"`. -/
theorem c10_unknown_type_passthrough_witness :
    (∀ t : String, t ∈ ["short_text", "long_text", "rich_text", "number",
        "single_select", "multiple_select", "measure"] →
      (AttrDef.mk (some "N") (some "banana") false []).type ≠ some t) ∧
    ((∀ v : String, pyStrip v ≠ "" →
      validate_value (some v) "N" ⟨some "N", some "banana", false, []⟩ 0 =
        ⟨true, PyVal.str (pyStrip v), none⟩) ∧
    (∀ v : Option String,
      (validate_value v "N" ⟨some "N", some "banana", false, []⟩ 0).isValid = false →
        (v = none ∨ pyStrip (v.getD "") = "") ∧
        (AttrDef.mk (some "N") (some "banana") false []).isRequired = true)) :=
  ⟨by decide, c10_unknown_type_passthrough ⟨some "N", some "banana", false, []⟩ "N" 0 (by decide)⟩

/-- C8 counterexample: the very same `(rawValue, definition)` pair fed to
`validate_value` in two different call contexts (row 0 versus row 1)
yields two different results — the error message embeds the row number —
so the result is not identical "regardless of any other call context". -/
theorem c8_determinism_counterexample :
    validate_value (some "abc") "Price" ⟨some "Price", some "number", false, []⟩ 0 ≠
      validate_value (some "abc") "Price" ⟨some "Price", some "number", false, []⟩ 1 := by
  decide

/-- C8 amended: `validate_value` is a pure function of its four
arguments, and the accepted flag and the cleaned value depend only on
the `(rawValue, definition)` pair; only the error message additionally
depends on the row number (and on the header name, when the definition
has no display name). -/
theorem c8_determinism_amended (v : Option String) (d : AttrDef)
    (hn1 hn2 : String) (r1 r2 : Nat) :
    (validate_value v hn1 d r1).isValid = (validate_value v hn2 d r2).isValid ∧
    (validate_value v hn1 d r1).cleanedValue = (validate_value v hn2 d r2).cleanedValue := by
  simp only [validate_value]
  by_cases hb : v = none ∨ pyStrip (v.getD "") = ""
  · rw [if_pos hb, if_pos hb]
    cases d.isRequired <;> simp
  · rw [if_neg hb, if_neg hb]
    by_cases t1 : d.type = some "short_text"
    · rw [if_pos t1, if_pos t1]
      by_cases tl : (pyStrip (v.getD "")).length > SHORT_TEXT_MAX_LENGTH <;>
        simp [tl]
    · rw [if_neg t1, if_neg t1]
      by_cases t2 : d.type = some "long_text" ∨ d.type = some "rich_text"
      · rw [if_pos t2, if_pos t2]
        simp
      · rw [if_neg t2, if_neg t2]
        by_cases t3 : d.type = some "number"
        · rw [if_pos t3, if_pos t3]
          cases pyFloat (pyStrip (v.getD "")) <;> simp
        · rw [if_neg t3, if_neg t3]
          by_cases t4 : d.type = some "single_select"
          · rw [if_pos t4, if_pos t4]
            by_cases o1 : d.options = []
            · rw [if_pos o1, if_pos o1]
              simp
            · rw [if_neg o1, if_neg o1]
              by_cases m1 : pyStrip (v.getD "") ∈ d.options <;> simp [m1]
          · rw [if_neg t4, if_neg t4]
            by_cases t5 : d.type = some "multiple_select"
            · rw [if_pos t5, if_pos t5]
              by_cases o1 : d.options = []
              · rw [if_pos o1, if_pos o1]
                simp
              · rw [if_neg o1, if_neg o1]
                by_cases s1 : ((pySplitSemi (pyStrip (v.getD ""))).map pyStrip).filter
                    (fun x => x ≠ "") = [] ∧ d.isRequired = true
                · rw [if_pos s1, if_pos s1]
                  simp
                · rw [if_neg s1, if_neg s1]
                  by_cases i1 : (((pySplitSemi (pyStrip (v.getD ""))).map pyStrip).filter
                      (fun x => x ≠ "")).filter (fun sv => sv ∉ d.options) = []
                  · rw [if_pos i1, if_pos i1]
                    simp
                  · rw [if_neg i1, if_neg i1]
                    simp
            · rw [if_neg t5, if_neg t5]
              by_cases t6 : d.type = some "measure" <;> simp [t6]

/-- Witness for C8 amended: same raw value and definition, two different
headers and rows. -/
theorem c8_determinism_amended_witness :
    (validate_value (some "x") "H1" ⟨none, some "short_text", false, []⟩ 0).isValid =
      (validate_value (some "x") "H2" ⟨none, some "short_text", false, []⟩ 5).isValid ∧
    (validate_value (some "x") "H1" ⟨none, some "short_text", false, []⟩ 0).cleanedValue =
      (validate_value (some "x") "H2" ⟨none, some "short_text", false, []⟩ 5).cleanedValue :=
  c8_determinism_amended (some "x") ⟨none, some "short_text", false, []⟩ "H1" "H2" 0 5

/-- C6 counterexample: for the required `multiple_select` definition with
options `["A","B","C"]` and the non-blank input `";"`, splitting yields
no entries and none of them is invalid, so the claim as stated predicts
acceptance of the (empty) ordered entry list — but the code rejects with
"Value is required." (the claim omits the required-and-empty-split
branch of line 126). -/
theorem c6_multiselect_counterexample :
    pyStrip ";" ≠ "" ∧
    (["A", "B", "C"] : List String) ≠ [] ∧
    (((pySplitSemi (pyStrip ";")).map pyStrip).filter (fun v => v ≠ "")).filter
      (fun sv => sv ∉ (["A", "B", "C"] : List String)) = [] ∧
    validate_value (some ";") "Tags"
        ⟨some "Tags", some "multiple_select", true, ["A", "B", "C"]⟩ 0 ≠
      ⟨true, PyVal.strList (((pySplitSemi (pyStrip ";")).map pyStrip).filter
        (fun v => v ≠ "")), none⟩ ∧
    validate_value (some ";") "Tags"
        ⟨some "Tags", some "multiple_select", true, ["A", "B", "C"]⟩ 0 =
      ⟨false, PyVal.str ";", some "Row 1, Column \x27Tags\x27: Value is required."⟩ := by
  decide

/-- C6 amended: for every `multiple_select` definition and non-blank
input, the input is split on `;`, trimmed, empties dropped; an empty
option list is an error; an empty entry list on a required field is an
error (the amendment); any entry outside the option set is an error
whose message lists exactly the invalid entries; otherwise the accepted
value is the ordered entry list.  With options `["A","B","C"]`,
`"A;C"` accepts `["A","C"]` and `"A;D"` rejects listing `["D"]`. -/
theorem c6_multiselect_amended (attr_def : AttrDef) (header_name : String)
    (row_number : Nat) (input : String)
    (ht : attr_def.type = some "multiple_select") (hnb : pyStrip input ≠ "") :
    (attr_def.options = [] →
      (validate_value (some input) header_name attr_def row_number).isValid = false) ∧
    (attr_def.options ≠ [] →
      ((pySplitSemi (pyStrip input)).map pyStrip).filter (fun v => v ≠ "") = [] →
      attr_def.isRequired = true →
      (validate_value (some input) header_name attr_def row_number).isValid = false) ∧
    (attr_def.options ≠ [] →
      ¬(((pySplitSemi (pyStrip input)).map pyStrip).filter (fun v => v ≠ "") = [] ∧
        attr_def.isRequired = true) →
      (((pySplitSemi (pyStrip input)).map pyStrip).filter (fun v => v ≠ "")).filter
        (fun sv => sv ∉ attr_def.options) ≠ [] →
      validate_value (some input) header_name attr_def row_number =
        ⟨false, PyVal.strList (((pySplitSemi (pyStrip input)).map pyStrip).filter
            (fun v => v ≠ "")),
          some (rowColHead row_number (attr_def.name.getD header_name) ++ "Values " ++
            pyReprList ((((pySplitSemi (pyStrip input)).map pyStrip).filter
              (fun v => v ≠ "")).filter (fun sv => sv ∉ attr_def.options)) ++
            " are not in allowed options: " ++ pyReprList attr_def.options ++ ".")⟩) ∧
    (attr_def.options ≠ [] →
      ¬(((pySplitSemi (pyStrip input)).map pyStrip).filter (fun v => v ≠ "") = [] ∧
        attr_def.isRequired = true) →
      (((pySplitSemi (pyStrip input)).map pyStrip).filter (fun v => v ≠ "")).filter
        (fun sv => sv ∉ attr_def.options) = [] →
      validate_value (some input) header_name attr_def row_number =
        ⟨true, PyVal.strList (((pySplitSemi (pyStrip input)).map pyStrip).filter
          (fun v => v ≠ "")), none⟩) ∧
    (attr_def.options = ["A", "B", "C"] →
      validate_value (some "A;C") header_name attr_def row_number =
        ⟨true, PyVal.strList ["A", "C"], none⟩ ∧
      (validate_value (some "A;D") header_name attr_def row_number).isValid = false ∧
      ∃ pre post,
        (validate_value (some "A;D") header_name attr_def row_number).errorMsg =
          some (pre ++ pyReprList ["D"] ++ post)) := by
  obtain ⟨nm, ty, req, opts⟩ := attr_def
  have ht' : ty = some "multiple_select" := ht
  subst ht'
  have hb : ¬((some input : Option String) = none ∨ pyStrip input = "") := by
    simp [hnb]
  refine ⟨?_, ?_, ?_, ?_, ?_⟩
  · intro ho
    have ho' : opts = [] := ho
    subst ho'
    simp only [validate_value, Option.getD_some]
    rw [if_neg hb]
    rfl
  · intro _ hsel hreq
    have hreq' : req = true := hreq
    subst hreq'
    by_cases ho : opts = []
    · subst ho
      simp only [validate_value, Option.getD_some]
      rw [if_neg hb]
      rfl
    · simp only [validate_value, Option.getD_some]
      rw [if_neg hb, if_neg ho, if_neg ho, hsel]
      rfl
  · intro ho hcond hinv
    have ho' : opts ≠ [] := ho
    have hcond' : ¬(((pySplitSemi (pyStrip input)).map pyStrip).filter
        (fun v => v ≠ "") = [] ∧ req = true) := hcond
    have hinv' : (((pySplitSemi (pyStrip input)).map pyStrip).filter
        (fun v => v ≠ "")).filter (fun sv => sv ∉ opts) ≠ [] := hinv
    simp only [validate_value, Option.getD_some]
    rw [if_neg hb, if_neg ho', if_neg ho', if_neg hcond', if_neg hinv']
    rfl
  · intro ho hcond hinv
    have ho' : opts ≠ [] := ho
    have hcond' : ¬(((pySplitSemi (pyStrip input)).map pyStrip).filter
        (fun v => v ≠ "") = [] ∧ req = true) := hcond
    have hinv' : (((pySplitSemi (pyStrip input)).map pyStrip).filter
        (fun v => v ≠ "")).filter (fun sv => sv ∉ opts) = [] := hinv
    simp only [validate_value, Option.getD_some]
    rw [if_neg hb, if_neg ho', if_neg ho', if_neg hcond', if_pos hinv']
    rfl
  · intro ho
    have ho' : opts = ["A", "B", "C"] := ho
    subst ho'
    refine ⟨rfl, rfl, "Row " ++ toString (row_number + 1) ++ ", Column \x27" ++
        (nm.getD header_name) ++ "\x27: Values ",
      " are not in allowed options: " ++ pyReprList ["A", "B", "C"] ++ ".", ?_⟩
    have hmsg : (validate_value (some "A;D") header_name
        ⟨nm, some "multiple_select", req, ["A", "B", "C"]⟩ row_number).errorMsg =
        some (rowColHead row_number (nm.getD header_name) ++ "Values " ++
          pyReprList ["D"] ++ " are not in allowed options: " ++
          pyReprList ["A", "B", "C"] ++ ".") := by rfl
    rw [hmsg]
    unfold rowColHead
    simp [String.append_assoc]

/-- Witness for C6 amended at the concrete definition with options
`["A","B","C"]` and input `"A;C"`. -/
theorem c6_multiselect_amended_witness :
    (AttrDef.mk (some "Tags") (some "multiple_select") false ["A", "B", "C"]).type =
      some "multiple_select" ∧
    pyStrip "A;C" ≠ "" ∧
    (((AttrDef.mk (some "Tags") (some "multiple_select") false ["A", "B", "C"]).options = [] →
      (validate_value (some "A;C") "Tags"
        ⟨some "Tags", some "multiple_select", false, ["A", "B", "C"]⟩ 0).isValid = false) ∧
    ((AttrDef.mk (some "Tags") (some "multiple_select") false ["A", "B", "C"]).options ≠ [] →
      ((pySplitSemi (pyStrip "A;C")).map pyStrip).filter (fun v => v ≠ "") = [] →
      (AttrDef.mk (some "Tags") (some "multiple_select") false ["A", "B", "C"]).isRequired = true →
      (validate_value (some "A;C") "Tags"
        ⟨some "Tags", some "multiple_select", false, ["A", "B", "C"]⟩ 0).isValid = false) ∧
    ((AttrDef.mk (some "Tags") (some "multiple_select") false ["A", "B", "C"]).options ≠ [] →
      ¬(((pySplitSemi (pyStrip "A;C")).map pyStrip).filter (fun v => v ≠ "") = [] ∧
        (AttrDef.mk (some "Tags") (some "multiple_select") false ["A", "B", "C"]).isRequired = true) →
      (((pySplitSemi (pyStrip "A;C")).map pyStrip).filter (fun v => v ≠ "")).filter
        (fun sv => sv ∉ (AttrDef.mk (some "Tags") (some "multiple_select") false
          ["A", "B", "C"]).options) ≠ [] →
      validate_value (some "A;C") "Tags"
          ⟨some "Tags", some "multiple_select", false, ["A", "B", "C"]⟩ 0 =
        ⟨false, PyVal.strList (((pySplitSemi (pyStrip "A;C")).map pyStrip).filter
            (fun v => v ≠ "")),
          some (rowColHead 0 ((AttrDef.mk (some "Tags") (some "multiple_select") false
              ["A", "B", "C"]).name.getD "Tags") ++ "Values " ++
            pyReprList ((((pySplitSemi (pyStrip "A;C")).map pyStrip).filter
              (fun v => v ≠ "")).filter (fun sv => sv ∉ (AttrDef.mk (some "Tags")
                (some "multiple_select") false ["A", "B", "C"]).options)) ++
            " are not in allowed options: " ++
            pyReprList (AttrDef.mk (some "Tags") (some "multiple_select") false
              ["A", "B", "C"]).options ++ ".")⟩) ∧
    ((AttrDef.mk (some "Tags") (some "multiple_select") false ["A", "B", "C"]).options ≠ [] →
      ¬(((pySplitSemi (pyStrip "A;C")).map pyStrip).filter (fun v => v ≠ "") = [] ∧
        (AttrDef.mk (some "Tags") (some "multiple_select") false ["A", "B", "C"]).isRequired = true) →
      (((pySplitSemi (pyStrip "A;C")).map pyStrip).filter (fun v => v ≠ "")).filter
        (fun sv => sv ∉ (AttrDef.mk (some "Tags") (some "multiple_select") false
          ["A", "B", "C"]).options) = [] →
      validate_value (some "A;C") "Tags"
          ⟨some "Tags", some "multiple_select", false, ["A", "B", "C"]⟩ 0 =
        ⟨true, PyVal.strList (((pySplitSemi (pyStrip "A;C")).map pyStrip).filter
          (fun v => v ≠ "")), none⟩) ∧
    ((AttrDef.mk (some "Tags") (some "multiple_select") false ["A", "B", "C"]).options =
        ["A", "B", "C"] →
      validate_value (some "A;C") "Tags"
          ⟨some "Tags", some "multiple_select", false, ["A", "B", "C"]⟩ 0 =
        ⟨true, PyVal.strList ["A", "C"], none⟩ ∧
      (validate_value (some "A;D") "Tags"
        ⟨some "Tags", some "multiple_select", false, ["A", "B", "C"]⟩ 0).isValid = false ∧
      ∃ pre post,
        (validate_value (some "A;D") "Tags"
          ⟨some "Tags", some "multiple_select", false, ["A", "B", "C"]⟩ 0).errorMsg =
          some (pre ++ pyReprList ["D"] ++ post))) :=
  ⟨rfl, by decide,
    c6_multiselect_amended ⟨some "Tags", some "multiple_select", false, ["A", "B", "C"]⟩
      "Tags" 0 "A;C" rfl (by decide)⟩

/-- Reading back the key just written. -/
lemma dbSet_same (db : JobsDb) (k : String) (r : JobRecord) : dbSet db k r k = some r := by
  simp [dbSet]

/-- After `log_initial_job_status` the job document exists, its status is
PROCESSING, and its `submittedAt` is the pre-existing one when the
document already existed, else the message's value. -/
lemma log_initial_present (db : JobsDb) (j b k f s now : String) :
    ∃ r : JobRecord, log_initial_job_status db j b k f s now j = some r ∧
      r.status = "PROCESSING" ∧
      r.submittedAt = (match db j with
        | some r0 => r0.submittedAt
        | none => s) := by
  unfold log_initial_job_status
  cases h : db j <;> simp [h, dbSet]

/-- After `update_job_status` on a present job the document exists with
the new status and the old `submittedAt`. -/
lemma update_status_present (db : JobsDb) (j S : String) (rk : Option String)
    (ed : Option (List (String × String))) (now : String) (r : JobRecord)
    (h : db j = some r) :
    ∃ r2 : JobRecord, update_job_status db j S rk ed now j = some r2 ∧
      r2.status = S ∧ r2.submittedAt = r.submittedAt := by
  unfold update_job_status
  rw [h]
  exact ⟨_, dbSet_same _ _ _, rfl, rfl⟩

/-- The row loop increments `total_rows_read` once per row. -/
lemma rowFold_totalRows (attrs : AttrMap) (hs : List String) :
    ∀ (l : List (Nat × Row)) (st : RowState),
      (l.foldl (rowFoldStep attrs hs) st).totalRows = st.totalRows + l.length := by
  intro l
  induction l with
  | nil => intro st; simp
  | cons x t ih =>
      intro st
      simp only [List.foldl_cons, ih, rowFoldStep, List.length_cons]
      omega

/-- The success path of `processRecord`: well-formed message, configured
bucket, non-empty attribute map, successful download and parse,
successful artifact write. -/
lemma processRecord_ok (env : Env) (msg : SqsMessage) (db : JobsDb)
    (headers : List String) (rows : List Row)
    (hj : msg.jobId ≠ "") (hbk : msg.s3Bucket ≠ "") (hk : msg.s3Key ≠ "")
    (hrb : env.resultsBucket ≠ "") (hattrs : env.attrs ≠ [])
    (hs3 : env.s3Object = some (Except.ok (headers, rows)))
    (hput : env.putObjectOk = true) :
    processRecord env msg db =
      { db := update_job_status (log_initial_job_status db msg.jobId msg.s3Bucket
          msg.s3Key msg.originalFileName msg.submittedAt env.now) msg.jobId
          (processCsv env.attrs headers rows).finalStatus
          (some (rstripSlash env.resultsPrefix ++ "/" ++ msg.jobId ++ "-result.json"))
          none env.now,
        written := [(rstripSlash env.resultsPrefix ++ "/" ++ msg.jobId ++ "-result.json",
          { jobId := msg.jobId, s3Key := msg.s3Key, processingTimestamp := env.now,
            message := (processCsv env.attrs headers rows).message,
            fileName := msg.originalFileName,
            headers := (processCsv env.attrs headers rows).headersForResult,
            products := (processCsv env.attrs headers rows).products,
            originalHeaders := headers,
            ignoredHeaders := (processCsv env.attrs headers rows).ignoredHeaders,
            validationErrors := (processCsv env.attrs headers rows).validationErrors })],
        propagates := false } := by
  simp only [processRecord, hs3]
  rw [if_neg (by simp [hj, hbk, hk]), if_neg hrb, if_neg hattrs, if_pos hput]

/-- On the success path the job's terminal status is exactly what the
CSV-processing block decided. -/
lemma statusOf_processRecord_ok (env : Env) (msg : SqsMessage) (db : JobsDb)
    (headers : List String) (rows : List Row)
    (hj : msg.jobId ≠ "") (hbk : msg.s3Bucket ≠ "") (hk : msg.s3Key ≠ "")
    (hrb : env.resultsBucket ≠ "") (hattrs : env.attrs ≠ [])
    (hs3 : env.s3Object = some (Except.ok (headers, rows)))
    (hput : env.putObjectOk = true) :
    statusOf (processRecord env msg db).db msg.jobId =
      some (processCsv env.attrs headers rows).finalStatus := by
  rw [processRecord_ok env msg db headers rows hj hbk hk hrb hattrs hs3 hput]
  obtain ⟨r, hr, _, _⟩ := log_initial_present db msg.jobId msg.s3Bucket msg.s3Key
    msg.originalFileName msg.submittedAt env.now
  obtain ⟨r2, hr2, hst, _⟩ := update_status_present _ msg.jobId
    (processCsv env.attrs headers rows).finalStatus
    (some (rstripSlash env.resultsPrefix ++ "/" ++ msg.jobId ++ "-result.json"))
    none env.now r hr
  simp [statusOf, hr2, hst]

/-- The status decision of line 250, with `total_rows_read` expressed as
the actual number of parsed data rows. -/
lemma processCsv_status (attrs : AttrMap) (headers : List String) (rows : List Row)
    (h1 : headers ≠ [])
    (h2 : headers.filter (fun h => (List.lookup h attrs).isSome) ≠ []) :
    ((processCsv attrs headers rows).finalStatus = "COMPLETED" ↔
      ((processCsv attrs headers rows).validationErrors = [] ∧
       (processCsv attrs headers rows).ignoredHeaders = [] ∧
       0 < rows.length ∧
       (processCsv attrs headers rows).products.length = rows.length)) ∧
    ((processCsv attrs headers rows).finalStatus = "COMPLETED" ∨
     (processCsv attrs headers rows).finalStatus = "COMPLETED_WITH_ISSUES") := by
  have htr : (rows.enum.foldl (rowFoldStep attrs
      (headers.filter (fun h => (List.lookup h attrs).isSome))) ⟨0, [], []⟩).totalRows
      = rows.length := by
    rw [rowFold_totalRows]
    simp [List.enum_length]
  unfold processCsv
  rw [if_neg h1, if_neg h2]
  simp only []
  rw [← htr]
  constructor
  · split
    · rename_i hc
      simp only [true_iff]
      exact ⟨hc.1, hc.2.1, hc.2.2.1, hc.2.2.2⟩
    · rename_i hc
      constructor
      · intro hfalse
        exact absurd hfalse (by decide)
      · intro hfields
        exact absurd ⟨hfields.1, hfields.2.1, hfields.2.2.1, hfields.2.2.2⟩ hc
  · split
    · exact Or.inl rfl
    · exact Or.inr rfl

/-- C1: for a message whose CSV downloads and parses successfully and
has at least one recognized header, the terminal job status is
COMPLETED exactly when the validation-error list is empty, the
ignored-header list is empty, at least one data row was read, and every
row produced a product; otherwise it is COMPLETED_WITH_ISSUES. -/
theorem c1_terminal_status (env : Env) (msg : SqsMessage) (db : JobsDb)
    (headers : List String) (rows : List Row)
    (hj : msg.jobId ≠ "") (hbk : msg.s3Bucket ≠ "") (hk : msg.s3Key ≠ "")
    (hrb : env.resultsBucket ≠ "")
    (hs3 : env.s3Object = some (Except.ok (headers, rows)))
    (hput : env.putObjectOk = true)
    (h1 : headers ≠ [])
    (h2 : headers.filter (fun h => (List.lookup h env.attrs).isSome) ≠ []) :
    (statusOf (processRecord env msg db).db msg.jobId = some "COMPLETED" ↔
      ((processCsv env.attrs headers rows).validationErrors = [] ∧
       (processCsv env.attrs headers rows).ignoredHeaders = [] ∧
       0 < rows.length ∧
       (processCsv env.attrs headers rows).products.length = rows.length)) ∧
    (statusOf (processRecord env msg db).db msg.jobId ≠ some "COMPLETED" →
      statusOf (processRecord env msg db).db msg.jobId = some "COMPLETED_WITH_ISSUES") := by
  have hattrs : env.attrs ≠ [] := by
    intro hnil
    apply h2
    simp [hnil]
  have hst := statusOf_processRecord_ok env msg db headers rows hj hbk hk hrb hattrs hs3 hput
  have hcs := processCsv_status env.attrs headers rows h1 h2
  rw [hst]
  constructor
  · rw [Option.some_inj]
    exact hcs.1
  · intro hne
    rcases hcs.2 with h | h
    · exact absurd (by rw [h]) hne
    · rw [h]

/-- Witness for C1 at a one-column, one-valid-row CSV. -/
theorem c1_terminal_status_witness :
    (SqsMessage.mk "job-1" "b" "k" "f.csv" "T0").jobId ≠ "" ∧
    (SqsMessage.mk "job-1" "b" "k" "f.csv" "T0").s3Bucket ≠ "" ∧
    (SqsMessage.mk "job-1" "b" "k" "f.csv" "T0").s3Key ≠ "" ∧
    (Env.mk [("Name", ⟨some "Name", some "short_text", false, []⟩)]
      (some (Except.ok (["Name"], [[("Name", some "Widget")]])))
      "rb" "processed-files/" "T" true).resultsBucket ≠ "" ∧
    (Env.mk [("Name", ⟨some "Name", some "short_text", false, []⟩)]
      (some (Except.ok (["Name"], [[("Name", some "Widget")]])))
      "rb" "processed-files/" "T" true).s3Object =
      some (Except.ok (["Name"], [[("Name", some "Widget")]])) ∧
    (["Name"] : List String) ≠ [] ∧
    (["Name"] : List String).filter (fun h =>
      (List.lookup h (Env.mk [("Name", ⟨some "Name", some "short_text", false, []⟩)]
        (some (Except.ok (["Name"], [[("Name", some "Widget")]])))
        "rb" "processed-files/" "T" true).attrs).isSome) ≠ [] ∧
    ((statusOf (processRecord
        (Env.mk [("Name", ⟨some "Name", some "short_text", false, []⟩)]
          (some (Except.ok (["Name"], [[("Name", some "Widget")]])))
          "rb" "processed-files/" "T" true)
        (SqsMessage.mk "job-1" "b" "k" "f.csv" "T0") (fun _ => none)).db
        (SqsMessage.mk "job-1" "b" "k" "f.csv" "T0").jobId = some "COMPLETED" ↔
      ((processCsv (Env.mk [("Name", ⟨some "Name", some "short_text", false, []⟩)]
          (some (Except.ok (["Name"], [[("Name", some "Widget")]])))
          "rb" "processed-files/" "T" true).attrs ["Name"]
          [[("Name", some "Widget")]]).validationErrors = [] ∧
       (processCsv (Env.mk [("Name", ⟨some "Name", some "short_text", false, []⟩)]
          (some (Except.ok (["Name"], [[("Name", some "Widget")]])))
          "rb" "processed-files/" "T" true).attrs ["Name"]
          [[("Name", some "Widget")]]).ignoredHeaders = [] ∧
       0 < ([[("Name", some "Widget")]] : List Row).length ∧
       (processCsv (Env.mk [("Name", ⟨some "Name", some "short_text", false, []⟩)]
          (some (Except.ok (["Name"], [[("Name", some "Widget")]])))
          "rb" "processed-files/" "T" true).attrs ["Name"]
          [[("Name", some "Widget")]]).products.length =
         ([[("Name", some "Widget")]] : List Row).length)) ∧
    (statusOf (processRecord
        (Env.mk [("Name", ⟨some "Name", some "short_text", false, []⟩)]
          (some (Except.ok (["Name"], [[("Name", some "Widget")]])))
          "rb" "processed-files/" "T" true)
        (SqsMessage.mk "job-1" "b" "k" "f.csv" "T0") (fun _ => none)).db
        (SqsMessage.mk "job-1" "b" "k" "f.csv" "T0").jobId ≠ some "COMPLETED" →
      statusOf (processRecord
        (Env.mk [("Name", ⟨some "Name", some "short_text", false, []⟩)]
          (some (Except.ok (["Name"], [[("Name", some "Widget")]])))
          "rb" "processed-files/" "T" true)
        (SqsMessage.mk "job-1" "b" "k" "f.csv" "T0") (fun _ => none)).db
        (SqsMessage.mk "job-1" "b" "k" "f.csv" "T0").jobId =
        some "COMPLETED_WITH_ISSUES")) :=
  ⟨by decide, by decide, by decide, by decide, rfl, by decide, by decide,
    c1_terminal_status
      (Env.mk [("Name", ⟨some "Name", some "short_text", false, []⟩)]
        (some (Except.ok (["Name"], [[("Name", some "Widget")]])))
        "rb" "processed-files/" "T" true)
      (SqsMessage.mk "job-1" "b" "k" "f.csv" "T0") (fun _ => none)
      ["Name"] [[("Name", some "Widget")]]
      (by decide) (by decide) (by decide) (by decide) rfl rfl (by decide) (by decide)⟩

/-- The CSV block on zero data rows: empty products and error lists, and
a terminal status of COMPLETED_WITH_ISSUES (the `total_rows_read > 0`
conjunct of line 250 fails). -/
lemma processCsv_no_rows (attrs : AttrMap) (headers : List String)
    (h1 : headers ≠ [])
    (h2 : headers.filter (fun h => (List.lookup h attrs).isSome) ≠ []) :
    (processCsv attrs headers []).finalStatus = "COMPLETED_WITH_ISSUES" ∧
    (processCsv attrs headers []).products = [] ∧
    (processCsv attrs headers []).validationErrors = [] := by
  unfold processCsv
  rw [if_neg h1, if_neg h2]
  simp

/-- C2 counterexample: a CSV with the single recognized header `Name`
and zero data rows yields zero products and zero validation errors, but
the terminal status is COMPLETED_WITH_ISSUES, not COMPLETED as the
claim states — zero rows fail the `total_rows_read > 0` conjunct. -/
theorem c2_zero_rows_counterexample :
    statusOf (processRecord
        (Env.mk [("Name", ⟨some "Name", some "short_text", false, []⟩)]
          (some (Except.ok (["Name"], []))) "rb" "processed-files/" "T" true)
        (SqsMessage.mk "job-1" "b" "k" "f.csv" "T0") (fun _ => none)).db "job-1" =
      some "COMPLETED_WITH_ISSUES" ∧
    statusOf (processRecord
        (Env.mk [("Name", ⟨some "Name", some "short_text", false, []⟩)]
          (some (Except.ok (["Name"], []))) "rb" "processed-files/" "T" true)
        (SqsMessage.mk "job-1" "b" "k" "f.csv" "T0") (fun _ => none)).db "job-1" ≠
      some "COMPLETED" ∧
    (processRecord
        (Env.mk [("Name", ⟨some "Name", some "short_text", false, []⟩)]
          (some (Except.ok (["Name"], []))) "rb" "processed-files/" "T" true)
        (SqsMessage.mk "job-1" "b" "k" "f.csv" "T0") (fun _ => none)).written.map
      (fun w => w.2.products) = [[]] ∧
    (processRecord
        (Env.mk [("Name", ⟨some "Name", some "short_text", false, []⟩)]
          (some (Except.ok (["Name"], []))) "rb" "processed-files/" "T" true)
        (SqsMessage.mk "job-1" "b" "k" "f.csv" "T0") (fun _ => none)).written.map
      (fun w => w.2.validationErrors) = [[]] := by
  decide

/-- C2 amended: a CSV whose header row is present, whose headers are all
recognized, and which has zero data rows produces zero products and
zero validation errors, and the terminal job status is
COMPLETED_WITH_ISSUES (not COMPLETED: zero rows read fail the
at-least-one-row conjunct of the promotion rule). -/
theorem c2_zero_rows_amended (env : Env) (msg : SqsMessage) (db : JobsDb)
    (headers : List String)
    (hj : msg.jobId ≠ "") (hbk : msg.s3Bucket ≠ "") (hk : msg.s3Key ≠ "")
    (hrb : env.resultsBucket ≠ "")
    (hs3 : env.s3Object = some (Except.ok (headers, [])))
    (hput : env.putObjectOk = true)
    (h1 : headers ≠ [])
    (hall : ∀ h ∈ headers, (List.lookup h env.attrs).isSome = true) :
    statusOf (processRecord env msg db).db msg.jobId = some "COMPLETED_WITH_ISSUES" ∧
    (processRecord env msg db).written.map (fun w => w.2.products) = [[]] ∧
    (processRecord env msg db).written.map (fun w => w.2.validationErrors) = [[]] := by
  have hattrs : env.attrs ≠ [] := by
    intro hnil
    rcases headers with _ | ⟨h0, t⟩
    · exact h1 rfl
    · have hl := hall h0 (by simp)
      rw [hnil] at hl
      simp at hl
  have hfe : headers.filter (fun h => (List.lookup h env.attrs).isSome) = headers :=
    List.filter_eq_self.mpr hall
  have h2 : headers.filter (fun h => (List.lookup h env.attrs).isSome) ≠ [] := by
    rw [hfe]
    exact h1
  have hnr := processCsv_no_rows env.attrs headers h1 h2
  refine ⟨?_, ?_, ?_⟩
  · rw [statusOf_processRecord_ok env msg db headers [] hj hbk hk hrb hattrs hs3 hput,
      hnr.1]
  · rw [processRecord_ok env msg db headers [] hj hbk hk hrb hattrs hs3 hput]
    simp [hnr.2.1]
  · rw [processRecord_ok env msg db headers [] hj hbk hk hrb hattrs hs3 hput]
    simp [hnr.2.2]

/-- Witness for C2 amended at the concrete header-only CSV. -/
theorem c2_zero_rows_amended_witness :
    (SqsMessage.mk "job-1" "b" "k" "f.csv" "T0").jobId ≠ "" ∧
    (∀ h ∈ (["Name"] : List String),
      (List.lookup h (Env.mk [("Name", ⟨some "Name", some "short_text", false, []⟩)]
        (some (Except.ok (["Name"], []))) "rb" "processed-files/" "T" true).attrs).isSome
        = true) ∧
    (statusOf (processRecord
        (Env.mk [("Name", ⟨some "Name", some "short_text", false, []⟩)]
          (some (Except.ok (["Name"], []))) "rb" "processed-files/" "T" true)
        (SqsMessage.mk "job-1" "b" "k" "f.csv" "T0") (fun _ => none)).db
        (SqsMessage.mk "job-1" "b" "k" "f.csv" "T0").jobId =
        some "COMPLETED_WITH_ISSUES" ∧
      (processRecord
        (Env.mk [("Name", ⟨some "Name", some "short_text", false, []⟩)]
          (some (Except.ok (["Name"], []))) "rb" "processed-files/" "T" true)
        (SqsMessage.mk "job-1" "b" "k" "f.csv" "T0") (fun _ => none)).written.map
        (fun w => w.2.products) = [[]] ∧
      (processRecord
        (Env.mk [("Name", ⟨some "Name", some "short_text", false, []⟩)]
          (some (Except.ok (["Name"], []))) "rb" "processed-files/" "T" true)
        (SqsMessage.mk "job-1" "b" "k" "f.csv" "T0") (fun _ => none)).written.map
        (fun w => w.2.validationErrors) = [[]]) :=
  ⟨by decide, by decide,
    c2_zero_rows_amended
      (Env.mk [("Name", ⟨some "Name", some "short_text", false, []⟩)]
        (some (Except.ok (["Name"], []))) "rb" "processed-files/" "T" true)
      (SqsMessage.mk "job-1" "b" "k" "f.csv" "T0") (fun _ => none) ["Name"]
      (by decide) (by decide) (by decide) (by decide) rfl rfl (by decide) (by decide)⟩

/-- A status update never changes a job's `submittedAt`. -/
lemma submittedAtOf_update (db : JobsDb) (j S : String) (rk : Option String)
    (ed : Option (List (String × String))) (now : String) :
    submittedAtOf (update_job_status db j S rk ed now) j = submittedAtOf db j := by
  unfold update_job_status submittedAtOf
  cases hd : db j <;> simp [hd, dbSet]

/-- A status update never changes whether a job document exists. -/
lemma isSome_update (db : JobsDb) (j S : String) (rk : Option String)
    (ed : Option (List (String × String))) (now : String) :
    (update_job_status db j S rk ed now j).isSome = (db j).isSome := by
  unfold update_job_status
  cases hd : db j <;> simp [hd, dbSet]

/-- A status update on a present job sets exactly the requested status. -/
lemma statusOf_update_of_present (db : JobsDb) (j S : String) (rk : Option String)
    (ed : Option (List (String × String))) (now : String)
    (h : (db j).isSome = true) :
    statusOf (update_job_status db j S rk ed now) j = some S := by
  unfold update_job_status statusOf
  cases hd : db j
  · rw [hd] at h
    simp at h
  · simp [hd, dbSet]

/-- The initial upsert always leaves the job document present. -/
lemma isSome_log_initial (db : JobsDb) (j b k f s now : String) :
    (log_initial_job_status db j b k f s now j).isSome = true := by
  unfold log_initial_job_status
  cases hd : db j <;> simp [hd, dbSet]

/-- The initial upsert on an absent job fixes `submittedAt` from the
message ($setOnInsert). -/
lemma submittedAtOf_log_initial_absent (db : JobsDb) (j b k f s now : String)
    (h : db j = none) :
    submittedAtOf (log_initial_job_status db j b k f s now) j = some s := by
  unfold log_initial_job_status submittedAtOf
  rw [h]
  simp [dbSet]

/-- The initial upsert on a present job preserves `submittedAt`
($setOnInsert does not fire on update). -/
lemma submittedAtOf_log_initial_present (db : JobsDb) (j b k f s now : String)
    (h : (db j).isSome = true) :
    submittedAtOf (log_initial_job_status db j b k f s now) j = submittedAtOf db j := by
  unfold log_initial_job_status submittedAtOf
  cases hd : db j
  · rw [hd] at h
    simp at h
  · simp [hd, dbSet]

/-- C3 counterexample: a job record already in the terminal status
COMPLETED, on a redelivered queue message for the same identifier, is
set back to PROCESSING by the line-179 initial upsert — the `$set`
document carries `status: 'PROCESSING'` unconditionally, so terminal
statuses do regress. -/
theorem c3_monotonic_counterexample :
    statusOf (dbSet (fun _ => none) "job-1"
        ⟨"b", "k", "f.csv", "COMPLETED", "T1", "T2", "T0", some "rk", none⟩) "job-1" =
      some "COMPLETED" ∧
    statusOf (log_initial_job_status
        (dbSet (fun _ => none) "job-1"
          ⟨"b", "k", "f.csv", "COMPLETED", "T1", "T2", "T0", some "rk", none⟩)
        "job-1" "b" "k" "f.csv" "T0" "T3") "job-1" = some "PROCESSING" ∧
    some "PROCESSING" ≠ some "COMPLETED" := by
  decide

/-- C3 amended: the initial upsert run by every delivery sets the status
of an existing job document back to PROCESSING whatever its current
(possibly terminal) status — transitions are not monotonic across
deliveries — while `submittedAt` is preserved by `$setOnInsert`. -/
theorem c3_redelivery_resets_processing (db : JobsDb)
    (j b k f s now : String) (r : JobRecord) (h : db j = some r) :
    statusOf (log_initial_job_status db j b k f s now) j = some "PROCESSING" ∧
    submittedAtOf (log_initial_job_status db j b k f s now) j = some r.submittedAt := by
  unfold log_initial_job_status statusOf submittedAtOf
  rw [h]
  simp [dbSet]

/-- Witness for C3 amended at a concrete COMPLETED record. -/
theorem c3_redelivery_resets_processing_witness :
    (dbSet (fun _ => none) "job-1"
        ⟨"b", "k", "f.csv", "COMPLETED", "T1", "T2", "T0", some "rk", none⟩) "job-1" =
      some ⟨"b", "k", "f.csv", "COMPLETED", "T1", "T2", "T0", some "rk", none⟩ ∧
    (statusOf (log_initial_job_status
        (dbSet (fun _ => none) "job-1"
          ⟨"b", "k", "f.csv", "COMPLETED", "T1", "T2", "T0", some "rk", none⟩)
        "job-1" "b2" "k2" "g.csv" "T4" "T5") "job-1" = some "PROCESSING" ∧
      submittedAtOf (log_initial_job_status
        (dbSet (fun _ => none) "job-1"
          ⟨"b", "k", "f.csv", "COMPLETED", "T1", "T2", "T0", some "rk", none⟩)
        "job-1" "b2" "k2" "g.csv" "T4" "T5") "job-1" =
      some (JobRecord.submittedAt
        ⟨"b", "k", "f.csv", "COMPLETED", "T1", "T2", "T0", some "rk", none⟩)) :=
  ⟨by decide,
    c3_redelivery_resets_processing
      (dbSet (fun _ => none) "job-1"
        ⟨"b", "k", "f.csv", "COMPLETED", "T1", "T2", "T0", some "rk", none⟩)
      "job-1" "b2" "k2" "g.csv" "T4" "T5"
      ⟨"b", "k", "f.csv", "COMPLETED", "T1", "T2", "T0", some "rk", none⟩ (by decide)⟩

/-- The download-failure branch of `processRecord`. -/
lemma processRecord_s3_fail (env : Env) (msg : SqsMessage) (db : JobsDb)
    (hj : msg.jobId ≠ "") (hbk : msg.s3Bucket ≠ "") (hk : msg.s3Key ≠ "")
    (hrb : env.resultsBucket ≠ "") (hattrs : env.attrs ≠ [])
    (h : env.s3Object = none) :
    processRecord env msg db =
      { db := update_job_status (update_job_status (log_initial_job_status db
            msg.jobId msg.s3Bucket msg.s3Key msg.originalFileName msg.submittedAt
            env.now) msg.jobId "FAILED" none
            (some [("error", "S3 download error")]) env.now)
          msg.jobId "FAILED" none
          (some [("error", "Unhandled exception during processing.")]) env.now,
        written := [], propagates := true } := by
  simp only [processRecord, h]
  rw [if_neg (by simp [hj, hbk, hk]), if_neg hrb, if_neg hattrs]

/-- The CSV-parse-failure branch of `processRecord`. -/
lemma processRecord_parse_fail (env : Env) (msg : SqsMessage) (db : JobsDb)
    (e : String)
    (hj : msg.jobId ≠ "") (hbk : msg.s3Bucket ≠ "") (hk : msg.s3Key ≠ "")
    (hrb : env.resultsBucket ≠ "") (hattrs : env.attrs ≠ [])
    (h : env.s3Object = some (Except.error e)) :
    processRecord env msg db =
      { db := update_job_status (log_initial_job_status db msg.jobId msg.s3Bucket
            msg.s3Key msg.originalFileName msg.submittedAt env.now) msg.jobId
          "FAILED" none
          (some [("error", "Failed to parse CSV file structure for job " ++
            msg.jobId ++ ": " ++ e)]) env.now,
        written := [], propagates := false } := by
  simp only [processRecord, h]
  rw [if_neg (by simp [hj, hbk, hk]), if_neg hrb, if_neg hattrs]

/-- `errorDetails` after an update that passes a structured payload. -/
lemma errorDetails_update_of_present (db : JobsDb) (j S : String)
    (rk : Option String) (ed : List (String × String)) (now : String)
    (h : (db j).isSome = true) :
    (update_job_status db j S rk (some ed) now j).map JobRecord.errorDetails =
      some (some ed) := by
  unfold update_job_status
  cases hd : db j
  · rw [hd] at h
    simp at h
  · simp [hd, dbSet]

/-- C7: an S3 download failure marks the job FAILED with a structured
error payload and re-raises, so `propagates = true` and the queue's
retry/DLQ machinery sees the failure; a CSV structural parse failure
marks the job FAILED and is absorbed (`continue`), so
`propagates = false` and processing moves to the next record. -/
theorem c7_failure_propagation (env : Env) (msg : SqsMessage) (db : JobsDb)
    (hj : msg.jobId ≠ "") (hbk : msg.s3Bucket ≠ "") (hk : msg.s3Key ≠ "")
    (hrb : env.resultsBucket ≠ "") (hattrs : env.attrs ≠ []) :
    (env.s3Object = none →
      (processRecord env msg db).propagates = true ∧
      statusOf (processRecord env msg db).db msg.jobId = some "FAILED" ∧
      ∃ ed, ((processRecord env msg db).db msg.jobId).map JobRecord.errorDetails =
        some (some ed)) ∧
    (∀ e, env.s3Object = some (Except.error e) →
      (processRecord env msg db).propagates = false ∧
      statusOf (processRecord env msg db).db msg.jobId = some "FAILED") := by
  constructor
  · intro h0
    rw [processRecord_s3_fail env msg db hj hbk hk hrb hattrs h0]
    dsimp only
    refine ⟨rfl, ?_, ?_⟩
    · apply statusOf_update_of_present
      rw [isSome_update]
      exact isSome_log_initial db msg.jobId msg.s3Bucket msg.s3Key
        msg.originalFileName msg.submittedAt env.now
    · refine ⟨[("error", "Unhandled exception during processing.")], ?_⟩
      apply errorDetails_update_of_present
      rw [isSome_update]
      exact isSome_log_initial db msg.jobId msg.s3Bucket msg.s3Key
        msg.originalFileName msg.submittedAt env.now
  · intro e he
    rw [processRecord_parse_fail env msg db e hj hbk hk hrb hattrs he]
    dsimp only
    refine ⟨rfl, ?_⟩
    apply statusOf_update_of_present
    exact isSome_log_initial db msg.jobId msg.s3Bucket msg.s3Key
      msg.originalFileName msg.submittedAt env.now

/-- Witness for C7 at a concrete download-failure environment. -/
theorem c7_failure_propagation_witness :
    (SqsMessage.mk "job-1" "b" "k" "f.csv" "T0").jobId ≠ "" ∧
    (Env.mk [("Name", ⟨some "Name", some "short_text", false, []⟩)] none
      "rb" "processed-files/" "T" true).attrs ≠ [] ∧
    (((Env.mk [("Name", ⟨some "Name", some "short_text", false, []⟩)] none
        "rb" "processed-files/" "T" true).s3Object = none →
      (processRecord (Env.mk [("Name", ⟨some "Name", some "short_text", false, []⟩)]
        none "rb" "processed-files/" "T" true)
        (SqsMessage.mk "job-1" "b" "k" "f.csv" "T0") (fun _ => none)).propagates = true ∧
      statusOf (processRecord (Env.mk [("Name", ⟨some "Name", some "short_text", false, []⟩)]
        none "rb" "processed-files/" "T" true)
        (SqsMessage.mk "job-1" "b" "k" "f.csv" "T0") (fun _ => none)).db
        (SqsMessage.mk "job-1" "b" "k" "f.csv" "T0").jobId = some "FAILED" ∧
      ∃ ed, ((processRecord (Env.mk [("Name", ⟨some "Name", some "short_text", false, []⟩)]
        none "rb" "processed-files/" "T" true)
        (SqsMessage.mk "job-1" "b" "k" "f.csv" "T0") (fun _ => none)).db
        (SqsMessage.mk "job-1" "b" "k" "f.csv" "T0").jobId).map JobRecord.errorDetails =
        some (some ed)) ∧
    (∀ e, (Env.mk [("Name", ⟨some "Name", some "short_text", false, []⟩)] none
        "rb" "processed-files/" "T" true).s3Object = some (Except.error e) →
      (processRecord (Env.mk [("Name", ⟨some "Name", some "short_text", false, []⟩)]
        none "rb" "processed-files/" "T" true)
        (SqsMessage.mk "job-1" "b" "k" "f.csv" "T0") (fun _ => none)).propagates = false ∧
      statusOf (processRecord (Env.mk [("Name", ⟨some "Name", some "short_text", false, []⟩)]
        none "rb" "processed-files/" "T" true)
        (SqsMessage.mk "job-1" "b" "k" "f.csv" "T0") (fun _ => none)).db
        (SqsMessage.mk "job-1" "b" "k" "f.csv" "T0").jobId = some "FAILED")) :=
  ⟨by decide, by decide,
    c7_failure_propagation
      (Env.mk [("Name", ⟨some "Name", some "short_text", false, []⟩)] none
        "rb" "processed-files/" "T" true)
      (SqsMessage.mk "job-1" "b" "k" "f.csv" "T0") (fun _ => none)
      (by decide) (by decide) (by decide) (by decide) (by decide)⟩

/-- The missing-results-bucket branch of `processRecord`. -/
lemma processRecord_no_bucket (env : Env) (msg : SqsMessage) (db : JobsDb)
    (hj : msg.jobId ≠ "") (hbk : msg.s3Bucket ≠ "") (hk : msg.s3Key ≠ "")
    (h : env.resultsBucket = "") :
    processRecord env msg db =
      { db := update_job_status (log_initial_job_status db msg.jobId msg.s3Bucket
            msg.s3Key msg.originalFileName msg.submittedAt env.now) msg.jobId
          "FAILED" none
          (some [("error", "PROCESSED_RESULTS_BUCKET environment variable not set.")])
          env.now,
        written := [], propagates := false } := by
  simp only [processRecord]
  rw [if_neg (by simp [hj, hbk, hk]), if_pos h]

/-- The empty-attribute-map branch of `processRecord`. -/
lemma processRecord_no_attrs (env : Env) (msg : SqsMessage) (db : JobsDb)
    (hj : msg.jobId ≠ "") (hbk : msg.s3Bucket ≠ "") (hk : msg.s3Key ≠ "")
    (hrb : env.resultsBucket ≠ "") (h : env.attrs = []) :
    processRecord env msg db =
      { db := update_job_status (log_initial_job_status db msg.jobId msg.s3Bucket
            msg.s3Key msg.originalFileName msg.submittedAt env.now) msg.jobId
          "FAILED" none
          (some [("error", "Could not retrieve attribute definitions for validation.")])
          env.now,
        written := [], propagates := false } := by
  simp only [processRecord]
  rw [if_neg (by simp [hj, hbk, hk]), if_neg hrb, if_pos h]

/-- The artifact-write-failure branch of `processRecord`. -/
lemma processRecord_put_fail (env : Env) (msg : SqsMessage) (db : JobsDb)
    (headers : List String) (rows : List Row)
    (hj : msg.jobId ≠ "") (hbk : msg.s3Bucket ≠ "") (hk : msg.s3Key ≠ "")
    (hrb : env.resultsBucket ≠ "") (hattrs : env.attrs ≠ [])
    (hs3 : env.s3Object = some (Except.ok (headers, rows)))
    (hput : env.putObjectOk = false) :
    processRecord env msg db =
      { db := update_job_status (update_job_status (log_initial_job_status db
            msg.jobId msg.s3Bucket msg.s3Key msg.originalFileName msg.submittedAt
            env.now) msg.jobId "FAILED" none
            (some [("error", "Failed to save results to S3.")]) env.now)
          msg.jobId "FAILED" none
          (some [("error", "Unhandled exception during processing.")]) env.now,
        written := [], propagates := true } := by
  simp only [processRecord, hs3]
  rw [if_neg (by simp [hj, hbk, hk]), if_neg hrb, if_neg hattrs,
    if_neg (by simp [hput])]

/-- For a well-formed message the record's outcome is db-independent:
some terminal status is always reached, the final `submittedAt` is
whatever the initial upsert left, and the written artifacts (with their
deterministic key) do not depend on the incoming store state. -/
lemma processRecord_invariants (env : Env) (msg : SqsMessage)
    (hj : msg.jobId ≠ "") (hbk : msg.s3Bucket ≠ "") (hk : msg.s3Key ≠ "") :
    ∃ S : String,
      (∀ db : JobsDb, statusOf (processRecord env msg db).db msg.jobId = some S) ∧
      (∀ db : JobsDb, submittedAtOf (processRecord env msg db).db msg.jobId =
        submittedAtOf (log_initial_job_status db msg.jobId msg.s3Bucket msg.s3Key
          msg.originalFileName msg.submittedAt env.now) msg.jobId) ∧
      (∀ db db' : JobsDb,
        (processRecord env msg db).written = (processRecord env msg db').written) ∧
      (∀ db : JobsDb, ∀ p ∈ (processRecord env msg db).written,
        p.1 = rstripSlash env.resultsPrefix ++ "/" ++ msg.jobId ++ "-result.json") := by
  by_cases hrb : env.resultsBucket = ""
  · refine ⟨"FAILED", ?_, ?_, ?_, ?_⟩
    · intro db
      rw [processRecord_no_bucket env msg db hj hbk hk hrb]
      dsimp only
      exact statusOf_update_of_present _ _ _ _ _ _
        (isSome_log_initial db msg.jobId msg.s3Bucket msg.s3Key
          msg.originalFileName msg.submittedAt env.now)
    · intro db
      rw [processRecord_no_bucket env msg db hj hbk hk hrb]
      dsimp only
      exact submittedAtOf_update _ _ _ _ _ _
    · intro db db'
      rw [processRecord_no_bucket env msg db hj hbk hk hrb,
        processRecord_no_bucket env msg db' hj hbk hk hrb]
    · intro db p hp
      rw [processRecord_no_bucket env msg db hj hbk hk hrb] at hp
      simp at hp
  · by_cases hattrs : env.attrs = []
    · refine ⟨"FAILED", ?_, ?_, ?_, ?_⟩
      · intro db
        rw [processRecord_no_attrs env msg db hj hbk hk hrb hattrs]
        dsimp only
        exact statusOf_update_of_present _ _ _ _ _ _
          (isSome_log_initial db msg.jobId msg.s3Bucket msg.s3Key
            msg.originalFileName msg.submittedAt env.now)
      · intro db
        rw [processRecord_no_attrs env msg db hj hbk hk hrb hattrs]
        dsimp only
        exact submittedAtOf_update _ _ _ _ _ _
      · intro db db'
        rw [processRecord_no_attrs env msg db hj hbk hk hrb hattrs,
          processRecord_no_attrs env msg db' hj hbk hk hrb hattrs]
      · intro db p hp
        rw [processRecord_no_attrs env msg db hj hbk hk hrb hattrs] at hp
        simp at hp
    · cases hobj : env.s3Object with
      | none =>
        refine ⟨"FAILED", ?_, ?_, ?_, ?_⟩
        · intro db
          rw [processRecord_s3_fail env msg db hj hbk hk hrb hattrs hobj]
          dsimp only
          refine statusOf_update_of_present _ _ _ _ _ _ ?_
          rw [isSome_update]
          exact isSome_log_initial db msg.jobId msg.s3Bucket msg.s3Key
            msg.originalFileName msg.submittedAt env.now
        · intro db
          rw [processRecord_s3_fail env msg db hj hbk hk hrb hattrs hobj]
          dsimp only
          rw [submittedAtOf_update, submittedAtOf_update]
        · intro db db'
          rw [processRecord_s3_fail env msg db hj hbk hk hrb hattrs hobj,
            processRecord_s3_fail env msg db' hj hbk hk hrb hattrs hobj]
        · intro db p hp
          rw [processRecord_s3_fail env msg db hj hbk hk hrb hattrs hobj] at hp
          simp at hp
      | some x =>
        cases x with
        | error e =>
          refine ⟨"FAILED", ?_, ?_, ?_, ?_⟩
          · intro db
            rw [processRecord_parse_fail env msg db e hj hbk hk hrb hattrs hobj]
            dsimp only
            exact statusOf_update_of_present _ _ _ _ _ _
              (isSome_log_initial db msg.jobId msg.s3Bucket msg.s3Key
                msg.originalFileName msg.submittedAt env.now)
          · intro db
            rw [processRecord_parse_fail env msg db e hj hbk hk hrb hattrs hobj]
            dsimp only
            exact submittedAtOf_update _ _ _ _ _ _
          · intro db db'
            rw [processRecord_parse_fail env msg db e hj hbk hk hrb hattrs hobj,
              processRecord_parse_fail env msg db' e hj hbk hk hrb hattrs hobj]
          · intro db p hp
            rw [processRecord_parse_fail env msg db e hj hbk hk hrb hattrs hobj] at hp
            simp at hp
        | ok pr =>
          obtain ⟨headers, rows⟩ := pr
          by_cases hput : env.putObjectOk = true
          · refine ⟨(processCsv env.attrs headers rows).finalStatus, ?_, ?_, ?_, ?_⟩
            · intro db
              rw [processRecord_ok env msg db headers rows hj hbk hk hrb hattrs hobj hput]
              dsimp only
              exact statusOf_update_of_present _ _ _ _ _ _
                (isSome_log_initial db msg.jobId msg.s3Bucket msg.s3Key
                  msg.originalFileName msg.submittedAt env.now)
            · intro db
              rw [processRecord_ok env msg db headers rows hj hbk hk hrb hattrs hobj hput]
              dsimp only
              exact submittedAtOf_update _ _ _ _ _ _
            · intro db db'
              rw [processRecord_ok env msg db headers rows hj hbk hk hrb hattrs hobj hput,
                processRecord_ok env msg db' headers rows hj hbk hk hrb hattrs hobj hput]
            · intro db p hp
              rw [processRecord_ok env msg db headers rows hj hbk hk hrb hattrs hobj hput] at hp
              simp at hp
              rw [hp]
          · have hput' : env.putObjectOk = false := by
              cases hpo : env.putObjectOk
              · rfl
              · exact absurd hpo hput
            refine ⟨"FAILED", ?_, ?_, ?_, ?_⟩
            · intro db
              rw [processRecord_put_fail env msg db headers rows hj hbk hk hrb hattrs hobj hput']
              dsimp only
              refine statusOf_update_of_present _ _ _ _ _ _ ?_
              rw [isSome_update]
              exact isSome_log_initial db msg.jobId msg.s3Bucket msg.s3Key
                msg.originalFileName msg.submittedAt env.now
            · intro db
              rw [processRecord_put_fail env msg db headers rows hj hbk hk hrb hattrs hobj hput']
              dsimp only
              rw [submittedAtOf_update, submittedAtOf_update]
            · intro db db'
              rw [processRecord_put_fail env msg db headers rows hj hbk hk hrb hattrs hobj hput',
                processRecord_put_fail env msg db' headers rows hj hbk hk hrb hattrs hobj hput']
            · intro db p hp
              rw [processRecord_put_fail env msg db headers rows hj hbk hk hrb hattrs hobj hput'] at hp
              simp at hp

/-- C4: processing the identical message a second time is idempotent —
the job ends in the same terminal status, `submittedAt` keeps the value
fixed on first insert, and the (identical) result artifact goes to the
same deterministic key `{prefix}/{jobId}-result.json`. -/
theorem c4_idempotent_redelivery (env : Env) (msg : SqsMessage) (db0 : JobsDb)
    (hj : msg.jobId ≠ "") (hbk : msg.s3Bucket ≠ "") (hk : msg.s3Key ≠ "")
    (habs : db0 msg.jobId = none) :
    statusOf (processRecord env msg (processRecord env msg db0).db).db msg.jobId =
      statusOf (processRecord env msg db0).db msg.jobId ∧
    submittedAtOf (processRecord env msg db0).db msg.jobId = some msg.submittedAt ∧
    submittedAtOf (processRecord env msg (processRecord env msg db0).db).db msg.jobId =
      some msg.submittedAt ∧
    (processRecord env msg (processRecord env msg db0).db).written =
      (processRecord env msg db0).written ∧
    (∀ p ∈ (processRecord env msg db0).written,
      p.1 = rstripSlash env.resultsPrefix ++ "/" ++ msg.jobId ++ "-result.json") := by
  obtain ⟨S, hS, hsub, hw, hkeys⟩ := processRecord_invariants env msg hj hbk hk
  have h1 : submittedAtOf (processRecord env msg db0).db msg.jobId =
      some msg.submittedAt := by
    rw [hsub db0, submittedAtOf_log_initial_absent _ _ _ _ _ _ _ habs]
  have hpres : ((processRecord env msg db0).db msg.jobId).isSome = true := by
    have hs := hS db0
    unfold statusOf at hs
    cases hd : (processRecord env msg db0).db msg.jobId
    · rw [hd] at hs
      simp at hs
    · simp
  refine ⟨by rw [hS, hS], h1, ?_, hw _ _, hkeys db0⟩
  rw [hsub _, submittedAtOf_log_initial_present _ _ _ _ _ _ _ hpres, h1]

/-- Witness for C4 at the concrete one-row success environment. -/
theorem c4_idempotent_redelivery_witness :
    (SqsMessage.mk "job-1" "b" "k" "f.csv" "T0").jobId ≠ "" ∧
    ((fun _ => none : JobsDb) (SqsMessage.mk "job-1" "b" "k" "f.csv" "T0").jobId = none) ∧
    (statusOf (processRecord
        (Env.mk [("Name", ⟨some "Name", some "short_text", false, []⟩)]
          (some (Except.ok (["Name"], [[("Name", some "Widget")]])))
          "rb" "processed-files/" "T" true)
        (SqsMessage.mk "job-1" "b" "k" "f.csv" "T0")
        (processRecord
          (Env.mk [("Name", ⟨some "Name", some "short_text", false, []⟩)]
            (some (Except.ok (["Name"], [[("Name", some "Widget")]])))
            "rb" "processed-files/" "T" true)
          (SqsMessage.mk "job-1" "b" "k" "f.csv" "T0") (fun _ => none)).db).db
        (SqsMessage.mk "job-1" "b" "k" "f.csv" "T0").jobId =
      statusOf (processRecord
        (Env.mk [("Name", ⟨some "Name", some "short_text", false, []⟩)]
          (some (Except.ok (["Name"], [[("Name", some "Widget")]])))
          "rb" "processed-files/" "T" true)
        (SqsMessage.mk "job-1" "b" "k" "f.csv" "T0") (fun _ => none)).db
        (SqsMessage.mk "job-1" "b" "k" "f.csv" "T0").jobId ∧
    submittedAtOf (processRecord
        (Env.mk [("Name", ⟨some "Name", some "short_text", false, []⟩)]
          (some (Except.ok (["Name"], [[("Name", some "Widget")]])))
          "rb" "processed-files/" "T" true)
        (SqsMessage.mk "job-1" "b" "k" "f.csv" "T0") (fun _ => none)).db
        (SqsMessage.mk "job-1" "b" "k" "f.csv" "T0").jobId =
      some (SqsMessage.mk "job-1" "b" "k" "f.csv" "T0").submittedAt ∧
    submittedAtOf (processRecord
        (Env.mk [("Name", ⟨some "Name", some "short_text", false, []⟩)]
          (some (Except.ok (["Name"], [[("Name", some "Widget")]])))
          "rb" "processed-files/" "T" true)
        (SqsMessage.mk "job-1" "b" "k" "f.csv" "T0")
        (processRecord
          (Env.mk [("Name", ⟨some "Name", some "short_text", false, []⟩)]
            (some (Except.ok (["Name"], [[("Name", some "Widget")]])))
            "rb" "processed-files/" "T" true)
          (SqsMessage.mk "job-1" "b" "k" "f.csv" "T0") (fun _ => none)).db).db
        (SqsMessage.mk "job-1" "b" "k" "f.csv" "T0").jobId =
      some (SqsMessage.mk "job-1" "b" "k" "f.csv" "T0").submittedAt ∧
    (processRecord
        (Env.mk [("Name", ⟨some "Name", some "short_text", false, []⟩)]
          (some (Except.ok (["Name"], [[("Name", some "Widget")]])))
          "rb" "processed-files/" "T" true)
        (SqsMessage.mk "job-1" "b" "k" "f.csv" "T0")
        (processRecord
          (Env.mk [("Name", ⟨some "Name", some "short_text", false, []⟩)]
            (some (Except.ok (["Name"], [[("Name", some "Widget")]])))
            "rb" "processed-files/" "T" true)
          (SqsMessage.mk "job-1" "b" "k" "f.csv" "T0") (fun _ => none)).db).written =
      (processRecord
        (Env.mk [("Name", ⟨some "Name", some "short_text", false, []⟩)]
          (some (Except.ok (["Name"], [[("Name", some "Widget")]])))
          "rb" "processed-files/" "T" true)
        (SqsMessage.mk "job-1" "b" "k" "f.csv" "T0") (fun _ => none)).written ∧
    (∀ p ∈ (processRecord
        (Env.mk [("Name", ⟨some "Name", some "short_text", false, []⟩)]
          (some (Except.ok (["Name"], [[("Name", some "Widget")]])))
          "rb" "processed-files/" "T" true)
        (SqsMessage.mk "job-1" "b" "k" "f.csv" "T0") (fun _ => none)).written,
      p.1 = rstripSlash (Env.mk [("Name", ⟨some "Name", some "short_text", false, []⟩)]
          (some (Except.ok (["Name"], [[("Name", some "Widget")]])))
          "rb" "processed-files/" "T" true).resultsPrefix ++ "/" ++
        (SqsMessage.mk "job-1" "b" "k" "f.csv" "T0").jobId ++ "-result.json")) :=
  ⟨by decide, rfl,
    c4_idempotent_redelivery
      (Env.mk [("Name", ⟨some "Name", some "short_text", false, []⟩)]
        (some (Except.ok (["Name"], [[("Name", some "Widget")]])))
        "rb" "processed-files/" "T" true)
      (SqsMessage.mk "job-1" "b" "k" "f.csv" "T0") (fun _ => none)
      (by decide) (by decide) (by decide) rfl⟩

/-- The identifier derivation only ever raises the `NameError` caused by
the missing `uuid` import. -/
lemma deriveProductId_error_msg (d : PyDoc) (e : String)
    (h : deriveProductId d = Except.error e) :
    e = "name \x27uuid\x27 is not defined" := by
  unfold deriveProductId at h
  cases h1 : getTruthy d "Barcode" <;> rw [h1] at h
  · cases h2 : getTruthy d "ProductName" <;> rw [h2] at h
    · exact (Except.error.injEq _ _ |>.mp h.symm)
    · simp at h
  · simp at h

/-- As soon as some element of the list has neither a truthy Barcode nor
a truthy ProductName, the processing loop aborts with the uuid
`NameError`, whatever was accumulated before it. -/
lemma processProductsGo_error (s3 now : String) :
    ∀ (l : List PyDoc) (acc : List PyDoc),
      (∃ d ∈ l, getTruthy d "Barcode" = none ∧ getTruthy d "ProductName" = none) →
      processProductsGo s3 now l acc =
        Except.error "name \x27uuid\x27 is not defined" := by
  intro l
  induction l with
  | nil =>
      intro acc h
      simp at h
  | cons d t ih =>
      intro acc h
      rcases h with ⟨d0, hd0, hb, hp⟩
      rcases List.mem_cons.mp hd0 with heq | hmem
      · subst heq
        unfold processProductsGo deriveProductId
        rw [hb, hp]
      · unfold processProductsGo
        cases hder : deriveProductId d
        · rw [deriveProductId_error_msg d _ hder]
        · exact ih _ ⟨d0, hmem, hb, hp⟩

/-- C9: if some element of the `products` array has neither a truthy
`Barcode` nor a truthy `ProductName`, the identifier derivation of line
117 evaluates `uuid.uuid4()` — but `uuid` is never imported, so a
`NameError` escapes the loop, the line-207 handler answers HTTP 500,
and the bulk write of line 189 is never issued: the store is unchanged. -/
theorem c9_uuid_name_error (products : List PyDoc) (s3 now : String)
    (store : ProductStore)
    (h : ∃ d ∈ products,
      getTruthy d "Barcode" = none ∧ getTruthy d "ProductName" = none) :
    (approveSaveHandler (some products) s3 store now).1.statusCode = 500 ∧
    (approveSaveHandler (some products) s3 store now).1.errorBody =
      some ("An unexpected server error occurred: " ++
        "name \x27uuid\x27 is not defined") ∧
    (approveSaveHandler (some products) s3 store now).2 = store := by
  have hne : products ≠ [] := by
    rcases h with ⟨d, hd, _⟩
    intro hl
    subst hl
    simp at hd
  have herr : processProducts products s3 now =
      Except.error "name \x27uuid\x27 is not defined" :=
    processProductsGo_error s3 now products [] h
  simp only [approveSaveHandler]
  rw [if_neg hne, herr]
  exact ⟨rfl, rfl, rfl⟩

/-- Witness for C9 at a one-element products array with neither key. -/
theorem c9_uuid_name_error_witness :
    (∃ d ∈ ([[("Foo", PyVal.str "bar")]] : List PyDoc),
      getTruthy d "Barcode" = none ∧ getTruthy d "ProductName" = none) ∧
    ((approveSaveHandler (some [[("Foo", PyVal.str "bar")]]) "src.csv"
        (fun _ => none) "T").1.statusCode = 500 ∧
      (approveSaveHandler (some [[("Foo", PyVal.str "bar")]]) "src.csv"
        (fun _ => none) "T").1.errorBody =
        some ("An unexpected server error occurred: " ++
          "name \x27uuid\x27 is not defined") ∧
      (approveSaveHandler (some [[("Foo", PyVal.str "bar")]]) "src.csv"
        (fun _ => none) "T").2 = (fun _ => none : ProductStore)) :=
  ⟨⟨[("Foo", PyVal.str "bar")], by decide, by decide, by decide⟩,
    c9_uuid_name_error [[("Foo", PyVal.str "bar")]] "src.csv" "T" (fun _ => none)
      ⟨[("Foo", PyVal.str "bar")], by decide, by decide, by decide⟩⟩

end PortalBackend
